import Mathlib

/-!
Verification of the ResoNote similarity engine and playlist assembler.

This file is a shallow embedding of the algorithmic core of the ResoNote
repository (src/services/similarityService.js, src/services/playlistService.js,
src/utils/helpers.js, src/data/dataLoader.js) together with theorems that
settle a list of behavioural claims about it.

Modelling conventions:
* JavaScript numbers are modelled as real numbers (`ℝ`).  `Math.sqrt` is
  `Real.sqrt`.  Floating-point rounding is idealised.
* A JavaScript number that can be `NaN` is modelled as `Option ℝ`, with
  `none` standing for `NaN`.  Every comparison against `NaN` is `false`,
  which is exactly how the embedding's `jsLt`, `jsGt` behave on `none`.
* A `throw` is modelled with `Except String`.
* The in-memory corpus (`dataLoader.js`) is an insertion-ordered map,
  modelled as an association list `List (String × Track)`.
* Tag dictionaries keyed by strings of the shape `facet:tag` and
  `facet1:tag1|facet2:tag2` (buildTagVector) are modelled with the
  injective key type `TagKey`; the string encoding is injective for the
  four fixed facet names and tag vocabularies free of ':' and '|'.
-/

/-- Track record as produced by the data loader and consumed by the
similarity engine.  `hasTags`/`hasFeatures` model the presence of the
`tags`/`features` objects; `scoreKeys f` models `Object.keys(scores[f])`
(empty when the per-facet score object is absent). -/
structure Track where
  hasTags : Bool
  tags : String → List String
  scoreKeys : String → List String
  scoreVal : String → String → ℝ
  hasFeatures : Bool
  features : String → Option ℝ
  track_name : Option String
  artist_name : Option String
  lyrics : Option String

/-- Corpus: the `allTracks` insertion-ordered `Map` of dataLoader.js. -/
def Store := List (String × Track)

/-- Embedding of dataLoader.js `getTrackById`: `allTracks.get(trackId) || null`. -/
def getTrackById (store : Store) (id : String) : Option Track :=
  (List.find? (fun p => p.1 = id) store).map Prod.snd

/-- Embedding of helpers.js `jaccardSimilarity`:
`|A ∩ B| / |A ∪ B|`, and 0 when the union is empty. -/
noncomputable def jaccardSimilarity (s1 s2 : Finset String) : ℝ :=
  if (s1 ∪ s2).card = 0 then 0 else ((s1 ∩ s2).card : ℝ) / ((s1 ∪ s2).card : ℝ)

/-- Embedding of helpers.js `normalize`: linear min-max normalisation with
a 0.5 fallback when the domain is degenerate. -/
noncomputable def jsNormalize (value min max : ℝ) : ℝ :=
  if max = min then 0.5 else (value - min) / (max - min)

/-- The fixed facet weights of `calculateSemanticSimilarity`
(similarityService.js lines 63-68), in declaration order. -/
def facetWeights : List (String × ℚ) :=
  [("Emotional_Tone", 0.4), ("Thematic_Content", 0.3),
   ("Narrative_Structure", 0.1), ("Lyrical_Style", 0.2)]

/-- Both tracks carry at least one tag for the facet
(the loop-skip test of similarityService.js line 80, negated). -/
def facetHasTags (t1 t2 : Track) (f : String) : Bool :=
  !(t1.tags f).isEmpty && !(t2.tags f).isEmpty

/-- Confidence score lookup `scores[facet][tag] || 0` used by the
weighted-Jaccard accumulation (similarityService.js lines 99-100). -/
def scoreOr0 (t : Track) (f tag : String) : ℝ :=
  if tag ∈ t.scoreKeys f then t.scoreVal f tag else 0

/-- Union of the two tag arrays as a set
(`new Set([...tags1, ...tags2])`, similarityService.js line 96). -/
def allTagsOf (t1 t2 : Track) (f : String) : Finset String :=
  (t1.tags f ++ t2.tags f).toFinset

/-- Per-facet similarity of `calculateSemanticSimilarity`
(similarityService.js lines 87-117): confidence-weighted Jaccard with a
fall back to plain Jaccard when no confidence mass is present at all. -/
noncomputable def facetSimilarity (t1 t2 : Track) (f : String) : ℝ :=
  let inter : ℝ := ∑ tag ∈ allTagsOf t1 t2 f, min (scoreOr0 t1 f tag) (scoreOr0 t2 f tag)
  let uni : ℝ := ∑ tag ∈ allTagsOf t1 t2 f, max (scoreOr0 t1 f tag) (scoreOr0 t2 f tag)
  if inter = 0 ∧ uni = 0 then
    jaccardSimilarity (t1.tags f).toFinset (t2.tags f).toFinset
  else if 0 < uni then inter / uni else 0

/-- The `basicTagSimilarity` accumulator of `calculateSemanticSimilarity`
(similarityService.js lines 72-121): sum of `similarity * weight` over the
facets that have tags on both sides.  There is no division afterwards; the
`totalWeight` variable declared at line 60 of the source is never used. -/
noncomputable def basicTagSimilarity (t1 t2 : Track) : ℝ :=
  facetWeights.foldl
    (fun acc fw =>
      if facetHasTags t1 t2 fw.1 then acc + facetSimilarity t1 t2 fw.1 * (fw.2 : ℝ) else acc)
    0

/-- The `facetsWithTags` counter of `calculateSemanticSimilarity`
(similarityService.js lines 73, 85). -/
def facetsWithTagsCount (t1 t2 : Track) : ℕ :=
  (facetWeights.filter (fun fw => facetHasTags t1 t2 fw.1)).length

/-- The `facetsWithData` list of `calculateSemanticSimilarity`
(similarityService.js lines 133-136): facets with tags on both sides,
in the fixed facet order. -/
def facetsWithData (t1 t2 : Track) : List String :=
  (facetWeights.map Prod.fst).filter (fun f => facetHasTags t1 t2 f)

/-- Key type for the tag vectors of `buildTagVector`: `facet:tag` entries
and `facet1:tag1|facet2:tag2` co-occurrence entries. -/
inductive TagKey where
  | single (facet tag : String)
  | pair (facet1 tag1 facet2 tag2 : String)
deriving DecidableEq

/-- Ordered pairs `(l[i], l[j])` with `i < j`: the nested loop of
`buildTagVector` (similarityService.js lines 178-199). -/
def listPairs : List α → List (α × α)
  | [] => []
  | a :: rest => rest.map (fun b => (a, b)) ++ listPairs rest

/-- Confidence lookup with default 1: `scores[facet][tag] || 1`
(similarityService.js lines 172, 192-193).  A stored score of 0 is falsy
in JavaScript, hence also replaced by 1. -/
noncomputable def confOr1 (t : Track) (f tag : String) : ℝ :=
  if tag ∈ t.scoreKeys f ∧ t.scoreVal f tag ≠ 0 then t.scoreVal f tag else 1

/-- Value of the `buildTagVector` dictionary at a key; 0 when the key is
absent (the `|| 0` reads of `calculateCosineSimilarity`). -/
noncomputable def tagVectorVal (t : Track) (facets : List String) : TagKey → ℝ
  | .single f tag =>
      if f ∈ facets ∧ tag ∈ t.tags f then confOr1 t f tag else 0
  | .pair f1 tg1 f2 tg2 =>
      if (f1, f2) ∈ listPairs facets ∧ tg1 ∈ t.tags f1 ∧ tg2 ∈ t.tags f2 then
        confOr1 t f1 tg1 * confOr1 t f2 tg2
      else 0

/-- Key set of the `buildTagVector` dictionary. -/
def tagVectorKeys (t : Track) (facets : List String) : List TagKey :=
  (facets.flatMap (fun f => (t.tags f).map (TagKey.single f))) ++
  ((listPairs facets).flatMap (fun p =>
    (t.tags p.1).flatMap (fun tg1 => (t.tags p.2).map (fun tg2 => TagKey.pair p.1 tg1 p.2 tg2))))

/-- Support of a tag vector as a finite set. -/
def tagVectorSupport (t : Track) (facets : List String) : Finset TagKey :=
  (tagVectorKeys t facets).toFinset

/-- Embedding of `calculateCosineSimilarity` (similarityService.js lines
210-236): dot product and squared magnitudes over the union of the two
dictionaries' key sets, then `dot / (sqrt m1 * sqrt m2)` guarded by a zero
test on the magnitude product. -/
noncomputable def cosineSimilarity (s1 s2 : Finset TagKey) (v1 v2 : TagKey → ℝ) : ℝ :=
  let dot : ℝ := ∑ k ∈ s1 ∪ s2, v1 k * v2 k
  let m1 : ℝ := ∑ k ∈ s1 ∪ s2, v1 k * v1 k
  let m2 : ℝ := ∑ k ∈ s1 ∪ s2, v2 k * v2 k
  let mp : ℝ := Real.sqrt m1 * Real.sqrt m2
  if mp = 0 then 0 else dot / mp

/-- The `coOccurrenceSimilarity` value of `calculateSemanticSimilarity`
(similarityService.js lines 128-147). -/
noncomputable def coOccurrenceSimilarity (t1 t2 : Track) : ℝ :=
  if 2 ≤ facetsWithTagsCount t1 t2 then
    let fd := facetsWithData t1 t2
    if 2 ≤ fd.length then
      cosineSimilarity (tagVectorSupport t1 fd) (tagVectorSupport t2 fd)
        (tagVectorVal t1 fd) (tagVectorVal t2 fd)
    else 0
  else 0

/-- Embedding of `calculateSemanticSimilarity` (similarityService.js lines
54-154).  Note that the final combination `basic * 0.4 + coOccurrence * 0.6`
is applied whenever at least one facet has tags on both sides, with the
co-occurrence term equal to 0 when fewer than two facets qualify. -/
noncomputable def calculateSemanticSimilarity (t1 t2 : Track) : ℝ :=
  if !t1.hasTags || !t2.hasTags then 0
  else if facetsWithTagsCount t1 t2 = 0 then 0
  else basicTagSimilarity t1 t2 * 0.4 + coOccurrenceSimilarity t1 t2 * 0.6

/-- The fixed audio feature weights of `calculateAudioSimilarity`
(similarityService.js lines 250-261), in declaration order. -/
def featureWeights : List (String × ℚ) :=
  [("danceability", 0.15), ("energy", 0.15), ("acousticness", 0.1),
   ("instrumentalness", 0.1), ("valence", 0.15), ("tempo", 0.1),
   ("loudness", 0.05), ("speechiness", 0.1), ("liveness", 0.05), ("mode", 0.05)]

/-- One step of the audio-feature loop (similarityService.js lines 267-304):
skip a feature missing or null on either side, otherwise add the weighted
squared difference and the weight to the two accumulators. -/
noncomputable def audioStep (t1 t2 : Track) (acc : ℝ × ℝ) (fw : String × ℚ) : ℝ × ℝ :=
  match t1.features fw.1, t2.features fw.1 with
  | some v1, some v2 =>
      let d : ℝ :=
        if fw.1 = "tempo" then (jsNormalize v1 40 200 - jsNormalize v2 40 200) ^ 2
        else if fw.1 = "loudness" then (jsNormalize v1 (-60) 0 - jsNormalize v2 (-60) 0) ^ 2
        else if fw.1 = "mode" then (if v1 = v2 then 0 else 1)
        else (v1 - v2) ^ 2
      (acc.1 + d * (fw.2 : ℝ), acc.2 + (fw.2 : ℝ))
  | _, _ => acc

/-- The `(sumSquaredDiff, totalWeight)` accumulator pair after the
feature loop of `calculateAudioSimilarity`. -/
noncomputable def audioAccum (t1 t2 : Track) : ℝ × ℝ :=
  featureWeights.foldl (audioStep t1 t2) (0, 0)

/-- Embedding of `calculateAudioSimilarity` (similarityService.js lines
244-316): weighted Euclidean distance over the comparable features mapped
to a similarity, 0 when either track has no features object or no feature
is comparable. -/
noncomputable def calculateAudioSimilarity (t1 t2 : Track) : ℝ :=
  if !t1.hasFeatures || !t2.hasFeatures then 0
  else
    let acc := audioAccum t1 t2
    if acc.2 = 0 then 0
    else 1 - min (Real.sqrt (acc.1 / acc.2)) 1

/-- Embedding of `calculateTrackSimilarity` (similarityService.js lines
13-46).  The result is `Except` (the unknown-type branch throws) of
`Option ℝ` (`none` models `NaN`).  In the combined branch with
`semanticWeight + audioWeight = 0` the JavaScript divisions produce
`NaN` or signed infinities and the final sum is always `NaN`, which the
embedding records as `none`. -/
noncomputable def calculateTrackSimilarity (store : Store) (id1 id2 : String)
    (similarityType : String) (semanticWeight audioWeight : ℝ) :
    Except String (Option ℝ) :=
  match getTrackById store id1, getTrackById store id2 with
  | some t1, some t2 =>
      if id1 = id2 then .ok (some 1)
      else if similarityType = "semantic" then
        .ok (some (calculateSemanticSimilarity t1 t2))
      else if similarityType = "audio" then
        .ok (some (calculateAudioSimilarity t1 t2))
      else if similarityType = "combined" then
        let semantic := calculateSemanticSimilarity t1 t2
        let audio := calculateAudioSimilarity t1 t2
        let totalWeight := semanticWeight + audioWeight
        if totalWeight = 0 then .ok none
        else .ok (some (semantic * (semanticWeight / totalWeight) +
                        audio * (audioWeight / totalWeight)))
      else .error ("Invalid similarity type: " ++ similarityType)
  | _, _ => .ok (some 0)

/-- Per-facet similarity as recomputed by `getSimilarityBreakdown`
(similarityService.js lines 389-415).  Unlike `facetSimilarity`, the
confidence-weighted path is chosen whenever both per-facet score objects
are non-empty, and there is no fallback inside that path. -/
noncomputable def bdFacetSimilarity (t1 t2 : Track) (f : String) : ℝ :=
  if !(t1.scoreKeys f).isEmpty && !(t2.scoreKeys f).isEmpty then
    let inter : ℝ := ∑ tag ∈ allTagsOf t1 t2 f, min (scoreOr0 t1 f tag) (scoreOr0 t2 f tag)
    let uni : ℝ := ∑ tag ∈ allTagsOf t1 t2 f, max (scoreOr0 t1 f tag) (scoreOr0 t2 f tag)
    if 0 < uni then inter / uni else 0
  else jaccardSimilarity (t1.tags f).toFinset (t2.tags f).toFinset

/-- The `(totalSemanticSimilarity, totalSemanticWeight)` accumulators of
`getSimilarityBreakdown` (similarityService.js lines 349-428): facets with
tags on both sides contribute `similarity * weight` and `weight`. -/
noncomputable def bdSemanticAccum (t1 t2 : Track) : ℝ × ℝ :=
  facetWeights.foldl
    (fun acc fw =>
      if facetHasTags t1 t2 fw.1 then
        (acc.1 + bdFacetSimilarity t1 t2 fw.1 * (fw.2 : ℝ), acc.2 + (fw.2 : ℝ))
      else acc)
    (0, 0)

/-- The audio accumulators of `getSimilarityBreakdown` (similarityService.js
lines 490-548); the per-feature bookkeeping mirrors the loop of
`calculateAudioSimilarity` exactly. -/
noncomputable def bdAudioAccum (t1 t2 : Track) : ℝ × ℝ :=
  featureWeights.foldl
    (fun acc fw =>
      match t1.features fw.1, t2.features fw.1 with
      | some v1, some v2 =>
          let d : ℝ :=
            if fw.1 = "tempo" then (jsNormalize v1 40 200 - jsNormalize v2 40 200) ^ 2
            else if fw.1 = "loudness" then (jsNormalize v1 (-60) 0 - jsNormalize v2 (-60) 0) ^ 2
            else if fw.1 = "mode" then (if v1 = v2 then 0 else 1)
            else (v1 - v2) ^ 2
          (acc.1 + d * (fw.2 : ℝ), acc.2 + (fw.2 : ℝ))
      | _, _ => acc)
    (0, 0)

/-- Result of `getSimilarityBreakdown`, restricted to the numeric scores.
The purely diagnostic detail (per-facet matching-tag lists, per-feature
raw/normalised values, matching co-occurrence patterns) is not modelled;
no claim depends on it. -/
structure Breakdown where
  semanticOverall : ℝ
  coOccurrenceScore : ℝ
  audioOverall : ℝ

/-- Embedding of `getSimilarityBreakdown` (similarityService.js lines
324-557), restricted to `result.semantic.overall`,
`result.semantic.coOccurrence.score` and `result.audio.overall`. -/
noncomputable def getSimilarityBreakdown (t1 t2 : Track) : Breakdown :=
  let semanticPair :=
    if t1.hasTags && t2.hasTags then
      let acc := bdSemanticAccum t1 t2
      let basic : ℝ := if 0 < acc.2 then acc.1 / acc.2 else 0
      let fd := facetsWithData t1 t2
      if 2 ≤ fd.length then
        let cos := cosineSimilarity (tagVectorSupport t1 fd) (tagVectorSupport t2 fd)
          (tagVectorVal t1 fd) (tagVectorVal t2 fd)
        (basic * 0.4 + cos * 0.6, cos)
      else (basic, 0)
    else (0, 0)
  let audioOverall :=
    if t1.hasFeatures && t2.hasFeatures then
      let acc := bdAudioAccum t1 t2
      if 0 < acc.2 then 1 - min (Real.sqrt (acc.1 / acc.2)) 1 else 0
    else 0
  { semanticOverall := semanticPair.1, coOccurrenceScore := semanticPair.2,
    audioOverall := audioOverall }

/-- Comparison `a < b` on JavaScript numbers that may be `NaN` (`none`):
any comparison involving `NaN` is false. -/
noncomputable def jsLt : Option ℝ → Option ℝ → Bool
  | some x, some y => decide (x < y)
  | _, _ => false

/-- Comparison `a > b` on JavaScript numbers that may be `NaN`. -/
noncomputable def jsGt : Option ℝ → Option ℝ → Bool
  | some x, some y => decide (y < x)
  | _, _ => false

/-- Addition with `NaN` propagation. -/
def jsAdd : Option ℝ → Option ℝ → Option ℝ
  | some x, some y => some (x + y)
  | _, _ => none

/-- Multiplication with `NaN` propagation (the operands produced by the
embedding are finite, so no `0 * ∞` subtleties arise). -/
def jsMul : Option ℝ → Option ℝ → Option ℝ
  | some x, some y => some (x * y)
  | _, _ => none

/-- Division of a possibly-`NaN` total by a list length, as in the
`averageSimilarity` computation: dividing by length 0 means `0 / 0`,
which is `NaN`. -/
noncomputable def jsDivNat : Option ℝ → ℕ → Option ℝ
  | some x, n => if n = 0 then none else some (x / (n : ℝ))
  | none, _ => none

/-- Stable insertion of `x` after every element not strictly below it.
Together with `jsSortDescBy` this models the stable ECMAScript
`Array.prototype.sort` under the comparator `(a, b) => key(b) - key(a)`:
a comparator result of `NaN` is treated as 0 (a tie) by the spec, which
is exactly `jsGt = false` on `none`. -/
noncomputable def insertDescBy (key : α → Option ℝ) (x : α) : List α → List α
  | [] => [x]
  | b :: bs => if jsGt (key x) (key b) then x :: b :: bs else b :: insertDescBy key x bs

/-- Stable descending sort by a possibly-`NaN` key; see `insertDescBy`. -/
noncomputable def jsSortDescBy (key : α → Option ℝ) (l : List α) : List α :=
  l.foldl (fun acc x => insertDescBy key x acc) []

/-- Entry of the similar-track lists built by `findSimilarTracks` and
enriched by `generatePlaylist`.  Fields that JavaScript adds dynamically
(`similarToSeed`, `isSeed`, `isVariation`, ...) default to the values an
absent property denotes. -/
structure SimTrack where
  track_id : String
  track_name : String
  artist_name : String
  similarity : Option ℝ
  similarToSeed : Option String := none
  isSeed : Bool := false
  isVariation : Bool := false
  variationOf : Option String := none
  combinedScore : Option ℝ := none
  isVariationGroup : Bool := false
  groupSize : ℕ := 1

/-- Options of `findSimilarTracks` with their default values
(similarityService.js lines 567-573). -/
structure FindOptions where
  limit : ℕ := 20
  similarityType : String := "combined"
  semanticWeight : ℝ := 0.5
  audioWeight : ℝ := 0.5
  minSimilarity : ℝ := 0.1

/-- One iteration of the candidate loop of `findSimilarTracks`
(similarityService.js lines 586-613): skip the source track, compute the
similarity (propagating a thrown error), drop the candidate when its
similarity compares below `minSimilarity` (a `NaN` similarity does not
compare below anything, hence is kept), otherwise append the result entry. -/
noncomputable def findSimStep (store : Store) (trackId : String) (opts : FindOptions)
    (acc : List SimTrack) (entry : String × Track) : Except String (List SimTrack) :=
  if entry.1 = trackId then pure acc
  else do
    let sim ← calculateTrackSimilarity store trackId entry.1
      opts.similarityType opts.semanticWeight opts.audioWeight
    if jsLt sim (some opts.minSimilarity) then pure acc
    else pure (acc ++ [{ track_id := entry.1,
                         track_name := entry.2.track_name.getD "Unknown Track",
                         artist_name := entry.2.artist_name.getD "Unknown Artist",
                         similarity := sim }])

/-- Embedding of `findSimilarTracks` (similarityService.js lines 565-620):
reject an unresolvable source, scan the corpus accumulating candidates,
sort descending by similarity and truncate to `limit`. -/
noncomputable def findSimilarTracks (store : Store) (trackId : String)
    (opts : FindOptions) : Except String (List SimTrack) :=
  match getTrackById store trackId with
  | none => .error ("Track with ID " ++ trackId ++ " not found")
  | some _ => do
      let results ← store.foldlM (findSimStep store trackId opts) []
      pure ((jsSortDescBy (fun t => t.similarity) results).take opts.limit)

/-- Opening bracket characters of the variation patterns. -/
def openBrackets : List Char := ['(', '[', '{']

/-- Closing bracket characters of the variation patterns. -/
def closeBrackets : List Char := [')', ']', '}']

/-- One application of a bracketed variation pattern
`/\s*[([{].*keyword.*[)\]}]/i` via `String.replace(pattern, '')`
(playlistService.js lines 296-306, 319-321), on the character list of the
track name.  The leftmost match starts at the whitespace run immediately
before the first opening bracket that is followed (case-insensitively) by
the keyword and later by some closing bracket; greediness makes the match
end at the last closing bracket of the string.  Names are assumed free of
newline characters (which `.` would not span). -/
def bracketStrip (kl : List Char) (s : List Char) : List Char :=
  let low := s.map Char.toLower
  let ok : ℕ → Bool := fun q =>
    kl.isPrefixOf (low.drop q) &&
    (s.drop (q + kl.length)).any (fun c => decide (c ∈ closeBrackets))
  let valid : ℕ → Bool := fun p =>
    decide (s.getD p ' ' ∈ openBrackets) &&
    (List.range s.length).any (fun q => decide (p + 1 ≤ q) && ok q)
  match (List.range s.length).find? valid with
  | none => s
  | some p =>
      let m := p - ((s.take p).reverse.takeWhile Char.isWhitespace).length
      let R := s.length - 1 - (s.reverse.findIdx (fun c => decide (c ∈ closeBrackets)))
      s.take m ++ s.drop (R + 1)

/-- One application of a trailing-dash variation pattern
`/\s*-\s*keyword.*/i` (playlistService.js lines 307-314): everything from
the whitespace run before the first qualifying dash to the end of the
name is removed. -/
def dashStrip (kl : List Char) (s : List Char) : List Char :=
  let low := s.map Char.toLower
  let valid : ℕ → Bool := fun d =>
    decide (s.getD d ' ' = '-') &&
    kl.isPrefixOf (low.drop (d + 1 + ((s.drop (d + 1)).takeWhile Char.isWhitespace).length))
  match (List.range s.length).find? valid with
  | none => s
  | some d => s.take (d - ((s.take d).reverse.takeWhile Char.isWhitespace).length)

/-- Keywords of the bracketed variation patterns, in source order. -/
def bracketKeywords : List String :=
  ["remix", "version", "edit", "mix", "feat.", "featuring", "cover", "live",
   "acoustic", "instrumental"]

/-- Keywords of the trailing-dash variation patterns, in source order. -/
def dashKeywords : List String :=
  ["remix", "version", "edit", "mix", "feat.", "featuring", "cover", "live"]

/-- Embedding of `getBaseTrackName` (playlistService.js lines 292-327):
apply all variation patterns in order, then trim whitespace. -/
def getBaseTrackName (trackName : String) : String :=
  if trackName = "" then ""
  else
    let afterBrackets := bracketKeywords.foldl (fun cs k => bracketStrip k.toList cs) trackName.toList
    let afterDash := dashKeywords.foldl (fun cs k => dashStrip k.toList cs) afterBrackets
    String.mk (((afterDash.dropWhile Char.isWhitespace).reverse.dropWhile Char.isWhitespace).reverse)

/-- Seed-track descriptor stored in `seedTrackDetails`
(playlistService.js lines 40-46). -/
structure SeedDetail where
  id : String
  name : String
  artist : String
  baseName : String
  lyrics : String

/-- Options of `generatePlaylist` with their default values
(playlistService.js lines 13-22).  `minTracks` is accepted but never read
by the implementation. -/
structure PlaylistOptions where
  minTracks : ℕ := 10
  maxTracks : ℕ := 30
  similarityType : String := "combined"
  semanticWeight : ℝ := 0.5
  audioWeight : ℝ := 0.5
  diversityFactor : ℝ := 0.3
  includeSeedTracks : Bool := true
  allowTrackVariations : Bool := true

/-- Seed entry pushed onto `validSeedTracks` (playlistService.js lines 31-37). -/
def seedSimTrack (id : String) (t : Track) : SimTrack :=
  { track_id := id, track_name := t.track_name.getD "Unknown Track",
    artist_name := t.artist_name.getD "Unknown Artist",
    similarity := some 1, isSeed := true }

/-- Detail entry pushed onto `seedTrackDetails` (playlistService.js lines 40-46). -/
def seedDetailOf (id : String) (t : Track) : SeedDetail :=
  { id := id, name := t.track_name.getD "", artist := t.artist_name.getD "",
    baseName := getBaseTrackName (t.track_name.getD ""), lyrics := t.lyrics.getD "" }

/-- One step of the deduplication pass over `allSimilarTracks`
(playlistService.js lines 77-96): seed candidates are skipped when seeds
are included, an already-present candidate is replaced only by a strictly
higher similarity (the `Map` keeps the original insertion position), and
new candidates are appended. -/
noncomputable def dedupStep (seeds : List SimTrack) (includeSeeds : Bool)
    (acc : List SimTrack) (t : SimTrack) : List SimTrack :=
  if includeSeeds ∧ seeds.any (fun s => s.track_id = t.track_id) then acc
  else if acc.any (fun e => e.track_id = t.track_id) then
    acc.map (fun e =>
      if e.track_id = t.track_id ∧ jsGt t.similarity e.similarity then t else e)
  else acc ++ [t]

/-- Annotation of one candidate in the `allowTrackVariations = true` branch
of `generatePlaylist` (playlistService.js lines 243-256): if the track
resolves and its base name exactly equals the base name of some seed, it
is marked as a variation of the first such seed; otherwise it is left
unchanged. -/
noncomputable def annotateOne (store : Store) (seedDetails : List SeedDetail)
    (t : SimTrack) : SimTrack :=
  match getTrackById store t.track_id with
  | none => t
  | some td =>
      match seedDetails.find? (fun sd => sd.baseName = getBaseTrackName (td.track_name.getD "")) with
      | some sd => { t with isVariation := true, variationOf := some sd.id }
      | none => t

/-- Embedding of the `allowTrackVariations = true` branch of
`generatePlaylist` (playlistService.js lines 241-258): no filtering; every
candidate is annotated in place. -/
noncomputable def annotateVariations (store : Store) (seedDetails : List SeedDetail)
    (l : List SimTrack) : List SimTrack :=
  l.map (annotateOne store seedDetails)

/-- Diversity contribution `1 - calculateTrackSimilarity(a, b, 'combined',
0.5, 0.5)` of the re-ranking loop (playlistService.js lines 356-367).
With type "combined" and weights 0.5/0.5 the call never throws and never
produces `NaN` (see `calcCombinedHalf_ok`), so the fallback arm is
unreachable. -/
noncomputable def diversityVal (store : Store) (id1 id2 : String) : ℝ :=
  match calculateTrackSimilarity store id1 id2 "combined" 0.5 0.5 with
  | .ok (some v) => 1 - v
  | _ => 1

/-- Scoring pass of one re-ranking iteration (playlistService.js lines
351-374): each remaining track receives
`combinedScore = similarity * (1 - diversityFactor) + avgDiversity * diversityFactor`. -/
noncomputable def scoreCandidates (store : Store) (df : ℝ) (selected : List SimTrack)
    (remaining : List SimTrack) : List SimTrack :=
  remaining.map (fun t =>
    let avgDiversity : ℝ :=
      (selected.map (fun s => diversityVal store t.track_id s.track_id)).sum /
        (selected.length : ℝ)
    { t with combinedScore :=
        jsAdd (jsMul t.similarity (some (1 - df))) (some (avgDiversity * df)) })

/-- The greedy `while` loop of `applyDiversityReranking` (playlistService.js
lines 350-381): score all remaining tracks, sort by `combinedScore`
descending, move the best into the selection.  The loop runs exactly once
per remaining track, so it is driven by a fuel initialised to the length
of the remaining list. -/
noncomputable def rerankLoop (store : Store) (df : ℝ) :
    ℕ → List SimTrack → List SimTrack → List SimTrack
  | 0, _, _ => []
  | n + 1, selected, remaining =>
      match jsSortDescBy (fun t => t.combinedScore) (scoreCandidates store df selected remaining) with
      | [] => []
      | best :: rest => best :: rerankLoop store df n (selected ++ [best]) rest

/-- Embedding of `applyDiversityReranking` (playlistService.js lines
335-384). -/
noncomputable def applyDiversityReranking (store : Store) (tracks : List SimTrack)
    (df : ℝ) : List SimTrack :=
  if tracks.length ≤ 1 ∨ df ≤ 0 then jsSortDescBy (fun t => t.similarity) tracks
  else
    match jsSortDescBy (fun t => t.similarity) tracks with
    | [] => []
    | first :: rest => first :: rerankLoop store df rest.length [first] rest

/-- Embedding of `generatePlaylistName` (playlistService.js lines 391-407). -/
def generatePlaylistName (seedTracks : List SimTrack) : String :=
  match seedTracks with
  | [] => "ResoNote Playlist"
  | [t] => "Songs like \"" ++ t.track_name ++ "\" by " ++ t.artist_name
  | [a, b] => "Mix of " ++ a.artist_name ++ " and " ++ b.artist_name
  | a :: b :: rest =>
      "Mix of " ++ a.artist_name ++ ", " ++ b.artist_name ++ ", and " ++
        toString rest.length ++ " more"

/-- ECMAScript `list.slice(0, e)` for a possibly negative end index `e`:
a negative `e` counts from the end of the list. -/
def jsSliceTo (l : List α) (e : ℤ) : List α :=
  if e < 0 then l.take ((l.length : ℤ) + e).toNat else l.take e.toNat

/-- The `stats` record of a generated playlist (playlistService.js lines
279-283). -/
structure PlaylistStats where
  trackCount : ℕ
  seedTrackCount : ℕ
  averageSimilarity : Option ℝ

/-- A generated playlist (playlistService.js lines 276-284). -/
structure Playlist where
  name : String
  tracks : List SimTrack
  stats : PlaylistStats

/-- The `totalSimilarity` reduction of `generatePlaylist`
(playlistService.js line 273). -/
def totalSimilarityOf (l : List SimTrack) : Option ℝ :=
  l.foldl (fun s t => jsAdd s t.similarity) (some 0)

/-- One iteration of the per-seed retrieval loop of `generatePlaylist`
(playlistService.js lines 60-74): fetch up to `2 * maxTracks` similar
tracks for the seed, tag them with the seed ID and append them. -/
noncomputable def seedSimilarStep (store : Store) (opts : PlaylistOptions)
    (acc : List SimTrack) (seed : SimTrack) : Except String (List SimTrack) :=
  findSimilarTracks store seed.track_id
      { limit := opts.maxTracks * 2, similarityType := opts.similarityType,
        semanticWeight := opts.semanticWeight, audioWeight := opts.audioWeight,
        minSimilarity := 0.1 } >>= fun similar =>
    pure (acc ++ similar.map (fun t => { t with similarToSeed := some seed.track_id }))

/-- The pure tail of `generatePlaylist` (playlistService.js lines 76-284):
deduplicate the merged candidates, apply the variation policy, re-rank,
truncate via `slice(0, maxTracks - playlistTracks.length)` and assemble
the playlist record with its stats. -/
noncomputable def assemblePlaylist (store : Store)
    (strictResolve : List SeedDetail → List SimTrack → List SimTrack)
    (opts : PlaylistOptions) (validSeedTracks : List SimTrack)
    (seedTrackDetails : List SeedDetail) (allSimilarTracks : List SimTrack) : Playlist :=
  let playlistTracks0 := if opts.includeSeedTracks then validSeedTracks else []
  let uniqueSimilarTracks :=
    allSimilarTracks.foldl (dedupStep validSeedTracks opts.includeSeedTracks) []
  let processedTracks :=
    if opts.allowTrackVariations then
      annotateVariations store seedTrackDetails uniqueSimilarTracks
    else strictResolve seedTrackDetails uniqueSimilarTracks
  let rankedTracks := applyDiversityReranking store processedTracks opts.diversityFactor
  let recommendedTracks :=
    jsSliceTo rankedTracks ((opts.maxTracks : ℤ) - (playlistTracks0.length : ℤ))
  let playlistTracks := playlistTracks0 ++ recommendedTracks
  { name := generatePlaylistName validSeedTracks,
    tracks := playlistTracks,
    stats := { trackCount := playlistTracks.length,
               seedTrackCount := validSeedTracks.length,
               averageSimilarity :=
                 jsDivNat (totalSimilarityOf playlistTracks) playlistTracks.length } }

/-- Embedding of `generatePlaylist` (playlistService.js lines 11-285).
The `allowTrackVariations = false` branch delegates to the external
fuzzy-matching library Fuse.js for its variation filtering and grouping
(lines 102-240); that resolver is taken as the explicit argument
`strictResolve`, on which no claim below depends.  Note the truncation
step `rankedTracks.slice(0, maxTracks - playlistTracks.length)` at line
264: when more valid seeds are included than `maxTracks`, the second
slice argument is negative and ECMAScript counts it from the end of the
list. -/
noncomputable def generatePlaylist (store : Store)
    (strictResolve : List SeedDetail → List SimTrack → List SimTrack)
    (seedTrackIds : List String) (opts : PlaylistOptions) : Except String Playlist :=
  let resolved := seedTrackIds.filterMap (fun id => (getTrackById store id).map (fun t => (id, t)))
  let validSeedTracks := resolved.map (fun p => seedSimTrack p.1 p.2)
  let seedTrackDetails := resolved.map (fun p => seedDetailOf p.1 p.2)
  if validSeedTracks.isEmpty then .error "No valid seed tracks provided"
  else
    validSeedTracks.foldlM (seedSimilarStep store opts) [] >>= fun allSimilarTracks =>
      pure (assemblePlaylist store strictResolve opts validSeedTracks seedTrackDetails
        allSimilarTracks)

/-- The identity strict-mode resolver, used to instantiate `generatePlaylist`
in concrete runs that take the `allowTrackVariations = true` branch, where
the resolver is irrelevant. -/
def strictResolveNoop : List SeedDetail → List SimTrack → List SimTrack := fun _ l => l

/-- Concrete track: tags `a` in Emotional_Tone and `b` in Thematic_Content,
no confidence scores, no audio features. -/
noncomputable def trackAB1 : Track :=
  { hasTags := true,
    tags := fun f =>
      if f = "Emotional_Tone" then ["a"] else if f = "Thematic_Content" then ["b"] else [],
    scoreKeys := fun _ => [], scoreVal := fun _ _ => 0,
    hasFeatures := false, features := fun _ => none,
    track_name := some "One", artist_name := none, lyrics := none }

/-- Concrete track: same tags as `trackAB1`, different name. -/
noncomputable def trackAB2 : Track :=
  { hasTags := true,
    tags := fun f =>
      if f = "Emotional_Tone" then ["a"] else if f = "Thematic_Content" then ["b"] else [],
    scoreKeys := fun _ => [], scoreVal := fun _ _ => 0,
    hasFeatures := false, features := fun _ => none,
    track_name := some "Two", artist_name := none, lyrics := none }

/-- Concrete track: a single tag `a` in Emotional_Tone only. -/
noncomputable def trackET1 : Track :=
  { hasTags := true,
    tags := fun f => if f = "Emotional_Tone" then ["a"] else [],
    scoreKeys := fun _ => [], scoreVal := fun _ _ => 0,
    hasFeatures := false, features := fun _ => none,
    track_name := some "One", artist_name := none, lyrics := none }

/-- Concrete track: a single tag `a` in Emotional_Tone only, different name. -/
noncomputable def trackET2 : Track :=
  { hasTags := true,
    tags := fun f => if f = "Emotional_Tone" then ["a"] else [],
    scoreKeys := fun _ => [], scoreVal := fun _ _ => 0,
    hasFeatures := false, features := fun _ => none,
    track_name := some "Two", artist_name := none, lyrics := none }

/-- Two-track corpus with the single-facet tracks. -/
noncomputable def storePair : Store := [("s1", trackET1), ("c1", trackET2)]

/-- Concrete track with no tags and no features, named Alpha. -/
noncomputable def blankAlpha : Track :=
  { hasTags := false, tags := fun _ => [], scoreKeys := fun _ => [],
    scoreVal := fun _ _ => 0, hasFeatures := false, features := fun _ => none,
    track_name := some "Alpha", artist_name := none, lyrics := none }

/-- Concrete track with no tags and no features, named Beta. -/
noncomputable def blankBeta : Track :=
  { hasTags := false, tags := fun _ => [], scoreKeys := fun _ => [],
    scoreVal := fun _ _ => 0, hasFeatures := false, features := fun _ => none,
    track_name := some "Beta", artist_name := none, lyrics := none }

/-- Two-track corpus of featureless, tagless tracks. -/
noncomputable def storeBlank : Store := [("s1", blankAlpha), ("s2", blankBeta)]

/-- Concrete track with one audio feature (danceability 0.5) and no tags,
named Alpha. -/
noncomputable def featAlpha : Track :=
  { hasTags := false, tags := fun _ => [], scoreKeys := fun _ => [],
    scoreVal := fun _ _ => 0, hasFeatures := true,
    features := fun f => if f = "danceability" then some 0.5 else none,
    track_name := some "Alpha", artist_name := none, lyrics := none }

/-- Concrete track with the same single audio feature, named Beta. -/
noncomputable def featBeta : Track :=
  { hasTags := false, tags := fun _ => [], scoreKeys := fun _ => [],
    scoreVal := fun _ _ => 0, hasFeatures := true,
    features := fun f => if f = "danceability" then some 0.5 else none,
    track_name := some "Beta", artist_name := none, lyrics := none }

/-- Two-track corpus whose tracks agree on one audio feature, giving a
combined similarity of 0.5 under default weights. -/
noncomputable def storeFeat : Store := [("s1", featAlpha), ("c1", featBeta)]

/-- Seed track named "Song (Original)" for the variation scenario. -/
noncomputable def songOriginal : Track :=
  { hasTags := false, tags := fun _ => [], scoreKeys := fun _ => [],
    scoreVal := fun _ _ => 0, hasFeatures := true,
    features := fun f => if f = "danceability" then some 0.5 else none,
    track_name := some "Song (Original)", artist_name := some "Ann",
    lyrics := some "la la la" }

/-- Candidate track named "Song (Remix)" with the same feature and lyrics. -/
noncomputable def songRemix : Track :=
  { hasTags := false, tags := fun _ => [], scoreKeys := fun _ => [],
    scoreVal := fun _ _ => 0, hasFeatures := true,
    features := fun f => if f = "danceability" then some 0.5 else none,
    track_name := some "Song (Remix)", artist_name := some "Ann",
    lyrics := some "la la la" }

/-- Two-track corpus for the variation scenario. -/
noncomputable def storeSong : Store := [("t1", songOriginal), ("t2", songRemix)]

/-- Retrieval options used inside `generatePlaylist` for `maxTracks = 1`. -/
noncomputable def fopts2 : FindOptions :=
  { limit := 2, similarityType := "combined", semanticWeight := 0.5, audioWeight := 0.5, minSimilarity := 0.1 }

/-- Retrieval options used inside `generatePlaylist` for `maxTracks = 30`. -/
noncomputable def fopts60 : FindOptions :=
  { limit := 60, similarityType := "combined", semanticWeight := 0.5, audioWeight := 0.5, minSimilarity := 0.1 }

/-- Default retrieval options. -/
noncomputable def foptsDefault : FindOptions := {}

/-- Retrieval options with both combination weights zero. -/
noncomputable def fopts0 : FindOptions := { semanticWeight := 0, audioWeight := 0 }

/-- Playlist options with `maxTracks = 1` and all other defaults. -/
noncomputable def opts1max : PlaylistOptions := { maxTracks := 1 }

/-- Default playlist options. -/
noncomputable def optsDefault : PlaylistOptions := {}

/-- The playlist produced by `generatePlaylist` on `storeBlank` with both
tracks as seeds and `maxTracks = 1`. -/
noncomputable def playlistBlank : Playlist :=
  assemblePlaylist storeBlank strictResolveNoop opts1max
    [seedSimTrack "s1" blankAlpha, seedSimTrack "s2" blankBeta]
    [seedDetailOf "s1" blankAlpha, seedDetailOf "s2" blankBeta] []

/-- The playlist produced by `generatePlaylist` on `storeFeat` with seed s1
and default options. -/
noncomputable def playlistFeat : Playlist :=
  assemblePlaylist storeFeat strictResolveNoop optsDefault
    [seedSimTrack "s1" featAlpha] [seedDetailOf "s1" featAlpha]
    [SimTrack.mk "c1" "Beta" "Unknown Artist" (some (1/2)) (some "s1") false false none none false 1]

/-- The playlist produced by `generatePlaylist` on `storeSong` with seed t1
and default options. -/
noncomputable def playlistSong : Playlist :=
  assemblePlaylist storeSong strictResolveNoop optsDefault
    [seedSimTrack "t1" songOriginal] [seedDetailOf "t1" songOriginal]
    [SimTrack.mk "t2" "Song (Remix)" "Ann" (some (1/2)) (some "t1") false false none none false 1]

/-- Folding `acc + g x` over the elements satisfying `p` equals the initial
value plus the sum of `g` over the filtered list. -/
theorem foldl_add_filter_sum {α : Type} (p : α → Bool) (g : α → ℝ) (l : List α) (a : ℝ) :
    l.foldl (fun acc x => if p x then acc + g x else acc) a =
      a + ((l.filter p).map g).sum := by
  induction l generalizing a with
  | nil => simp
  | cons x xs ih =>
      by_cases h : p x
      · simp [h, ih, add_assoc]
      · simp [h, ih]

/-- C1 (amended): the basic facet similarity accumulated by
`calculateSemanticSimilarity` is the plain sum of per-facet similarity
times facet weight over the facets with tags on both sides; no division,
neither by the facet count nor by the weight sum, is applied. -/
theorem C1_basic_similarity_is_undivided_sum (t1 t2 : Track) :
    basicTagSimilarity t1 t2 =
      ((facetWeights.filter (fun fw => facetHasTags t1 t2 fw.1)).map
        (fun fw => facetSimilarity t1 t2 fw.1 * (fw.2 : ℝ))).sum := by
  unfold basicTagSimilarity
  rw [foldl_add_filter_sum]
  simp

/-- C1 (counterexample): for two tracks sharing tag `a` in Emotional_Tone
and tag `b` in Thematic_Content, the accumulated basic similarity is
`1 * 0.4 + 1 * 0.3 = 0.7` over 2 qualifying facets, which differs from
the claimed value `(similarity-weight sum) / (count of facets with tags)
= 0.35`: the implementation never divides by the facet count. -/
theorem C1_counterexample :
    basicTagSimilarity trackAB1 trackAB2 = 7/10 ∧
    facetsWithTagsCount trackAB1 trackAB2 = 2 ∧
    basicTagSimilarity trackAB1 trackAB2 ≠
      basicTagSimilarity trackAB1 trackAB2 / (facetsWithTagsCount trackAB1 trackAB2 : ℝ) := by
  have hET : facetSimilarity trackAB1 trackAB2 "Emotional_Tone" = 1 := by
    simp [facetSimilarity, allTagsOf, scoreOr0, trackAB1, trackAB2, jaccardSimilarity]
  have hTC : facetSimilarity trackAB1 trackAB2 "Thematic_Content" = 1 := by
    simp [facetSimilarity, allTagsOf, scoreOr0, trackAB1, trackAB2, jaccardSimilarity]
  have e1 : facetHasTags trackAB1 trackAB2 "Emotional_Tone" = true := by decide
  have e2 : facetHasTags trackAB1 trackAB2 "Thematic_Content" = true := by decide
  have e3 : facetHasTags trackAB1 trackAB2 "Narrative_Structure" = false := by decide
  have e4 : facetHasTags trackAB1 trackAB2 "Lyrical_Style" = false := by decide
  have hbasic : basicTagSimilarity trackAB1 trackAB2 = 7/10 := by
    unfold basicTagSimilarity
    rw [foldl_add_filter_sum]
    simp [facetWeights, e1, e2, e3, e4, hET, hTC]
    norm_num
  have hcount : facetsWithTagsCount trackAB1 trackAB2 = 2 := by decide
  refine ⟨hbasic, hcount, ?_⟩
  rw [hbasic, hcount]
  norm_num

/-- C2 (amended): when fewer than two facets have tags on both sides,
`calculateSemanticSimilarity` still applies the 0.4/0.6 blend with a zero
co-occurrence term, returning `0.4 * basicTagSimilarity` — not the basic
facet similarity alone. -/
theorem C2_below_two_facets_blend_still_applied (t1 t2 : Track)
    (h1 : t1.hasTags = true) (h2 : t2.hasTags = true)
    (h : facetsWithTagsCount t1 t2 < 2) :
    calculateSemanticSimilarity t1 t2 = basicTagSimilarity t1 t2 * 0.4 := by
  by_cases h0 : facetsWithTagsCount t1 t2 = 0
  · have hfilter : facetWeights.filter (fun fw => facetHasTags t1 t2 fw.1) = [] := by
      have := h0
      unfold facetsWithTagsCount at this
      exact List.length_eq_zero.mp this
    have hb : basicTagSimilarity t1 t2 = 0 := by
      unfold basicTagSimilarity
      rw [foldl_add_filter_sum, hfilter]
      simp
    unfold calculateSemanticSimilarity
    simp [h1, h2, h0, hb]
  · have hco : coOccurrenceSimilarity t1 t2 = 0 := by
      unfold coOccurrenceSimilarity
      rw [if_neg (by omega)]
    unfold calculateSemanticSimilarity
    simp [h1, h2, h0, hco]

/-- C2 (witness): the amended statement applied to the concrete
one-facet pair. -/
theorem C2_witness :
    calculateSemanticSimilarity trackET1 trackET2 = basicTagSimilarity trackET1 trackET2 * 0.4 :=
  C2_below_two_facets_blend_still_applied trackET1 trackET2 rfl rfl (by decide)

/-- C2 (counterexample): for two tracks whose only shared facet is
Emotional_Tone with identical tag sets, the basic facet similarity is
`0.4` but `calculateSemanticSimilarity` returns `0.4 * 0.4 = 0.16`, not
the basic similarity alone. -/
theorem C2_counterexample :
    calculateSemanticSimilarity trackET1 trackET2 = 4/25 ∧
    basicTagSimilarity trackET1 trackET2 = 2/5 ∧ ((4 : ℝ)/25) ≠ 2/5 := by
  have hET : facetSimilarity trackET1 trackET2 "Emotional_Tone" = 1 := by
    simp [facetSimilarity, allTagsOf, scoreOr0, trackET1, trackET2, jaccardSimilarity]
  have e1 : facetHasTags trackET1 trackET2 "Emotional_Tone" = true := by decide
  have e2 : facetHasTags trackET1 trackET2 "Thematic_Content" = false := by decide
  have e3 : facetHasTags trackET1 trackET2 "Narrative_Structure" = false := by decide
  have e4 : facetHasTags trackET1 trackET2 "Lyrical_Style" = false := by decide
  have hbasic : basicTagSimilarity trackET1 trackET2 = 2/5 := by
    unfold basicTagSimilarity
    rw [foldl_add_filter_sum]
    simp [facetWeights, e1, e2, e3, e4, hET]
    norm_num
  have hcount : facetsWithTagsCount trackET1 trackET2 = 1 := by decide
  have hco : coOccurrenceSimilarity trackET1 trackET2 = 0 := by
    unfold coOccurrenceSimilarity
    rw [hcount]
    norm_num
  have hT1 : trackET1.hasTags = true := rfl
  have hT2 : trackET2.hasTags = true := rfl
  have hcalc : calculateSemanticSimilarity trackET1 trackET2 = 4/25 := by
    unfold calculateSemanticSimilarity
    rw [hT1, hT2, hcount]
    simp [hbasic, hco]
    norm_num
  exact ⟨hcalc, hbasic, by norm_num⟩

/-- C9: with `semanticWeight = 0` and `audioWeight = 0`, the combined
branch of `calculateTrackSimilarity` divides by the zero total weight
without any guard; the JavaScript result is `NaN` (modelled `none`), not
the value 0 promised by the specification. -/
theorem C9_zero_total_weight_gives_NaN :
    calculateTrackSimilarity storePair "s1" "c1" "combined" (0 : ℝ) 0 = .ok none ∧
    (Except.ok none : Except String (Option ℝ)) ≠ .ok (some 0) := by
  constructor
  · unfold calculateTrackSimilarity
    rw [show getTrackById storePair "s1" = some trackET1 from rfl,
        show getTrackById storePair "c1" = some trackET2 from rfl]
    norm_num
    rw [if_neg (by decide), if_neg (by decide), if_neg (by decide)]
  · simp

/-- C10: `calculateTrackSimilarity` checks track resolution and ID equality
before validating the similarity type: an unresolvable ID yields `ok 0`
and equal resolvable IDs yield `ok 1` even for an unrecognized type
string, and an error can only be produced when both IDs resolve, differ,
and the type is none of semantic/audio/combined. -/
theorem C10_resolution_checked_before_type (store : Store) (id1 id2 simType : String)
    (sw aw : ℝ) :
    ((getTrackById store id1 = none ∨ getTrackById store id2 = none) →
      calculateTrackSimilarity store id1 id2 simType sw aw = .ok (some 0)) ∧
    (∀ t1 t2, getTrackById store id1 = some t1 → getTrackById store id2 = some t2 →
      id1 = id2 → calculateTrackSimilarity store id1 id2 simType sw aw = .ok (some 1)) ∧
    (∀ e, calculateTrackSimilarity store id1 id2 simType sw aw = .error e →
      (∃ t1, getTrackById store id1 = some t1) ∧ (∃ t2, getTrackById store id2 = some t2) ∧
      id1 ≠ id2 ∧ simType ≠ "semantic" ∧ simType ≠ "audio" ∧ simType ≠ "combined") := by
  refine ⟨?_, ?_, ?_⟩
  · intro h
    unfold calculateTrackSimilarity
    cases h1 : getTrackById store id1 with
    | none => rfl
    | some t1 =>
        cases h2 : getTrackById store id2 with
        | none => rfl
        | some t2 =>
            rcases h with h | h
            · rw [h1] at h; cases h
            · rw [h2] at h; cases h
  · intro t1 t2 h1 h2 heq
    unfold calculateTrackSimilarity
    rw [h1, h2]
    simp [heq]
  · intro e he
    unfold calculateTrackSimilarity at he
    cases h1 : getTrackById store id1 with
    | none => rw [h1] at he; cases he
    | some t1 =>
        cases h2 : getTrackById store id2 with
        | none => rw [h1, h2] at he; cases he
        | some t2 =>
            rw [h1, h2] at he
            simp only [] at he
            split_ifs at he with hid hsem haud hcomb htw
            all_goals try cases he
            exact ⟨⟨t1, rfl⟩, ⟨t2, rfl⟩, hid, hsem, haud, hcomb⟩

/-- C10 (witness): the theorem applied to an unresolvable ID and to a pair
of equal resolvable IDs, both with an unrecognized similarity type. -/
theorem C10_witness :
    calculateTrackSimilarity storePair "zz" "s1" "weird" 0 0 = .ok (some 0) ∧
    calculateTrackSimilarity storePair "s1" "s1" "weird" 0 0 = .ok (some 1) :=
  ⟨(C10_resolution_checked_before_type storePair "zz" "s1" "weird" 0 0).1 (Or.inl rfl),
   (C10_resolution_checked_before_type storePair "s1" "s1" "weird" 0 0).2.1
     trackET1 trackET1 rfl rfl rfl⟩

/-- The second audio accumulator (total weight) never decreases at a step. -/
theorem audioStep_snd_mono (t1 t2 : Track) (acc : ℝ × ℝ) (fw : String × ℚ)
    (h : 0 ≤ (fw.2 : ℝ)) : acc.2 ≤ (audioStep t1 t2 acc fw).2 := by
  unfold audioStep
  cases t1.features fw.1 <;> cases t2.features fw.1 <;> simp <;> exact_mod_cast h

/-- The accumulated total weight stays non-negative along the feature loop. -/
theorem foldl_audioStep_snd_nonneg (t1 t2 : Track) (l : List (String × ℚ)) (acc : ℝ × ℝ)
    (hl : ∀ fw ∈ l, 0 ≤ (fw.2 : ℝ)) (h : 0 ≤ acc.2) :
    0 ≤ (l.foldl (audioStep t1 t2) acc).2 := by
  induction l generalizing acc with
  | nil => simpa
  | cons x xs ih =>
      simp only [List.foldl_cons]
      exact ih _ (fun fw hfw => hl fw (List.mem_cons_of_mem _ hfw))
        (le_trans h (audioStep_snd_mono t1 t2 acc x (hl x (List.mem_cons_self _ _))))

/-- The total audio weight accumulated by `calculateAudioSimilarity` is
non-negative. -/
theorem audioAccum_snd_nonneg (t1 t2 : Track) : 0 ≤ (audioAccum t1 t2).2 := by
  apply foldl_audioStep_snd_nonneg
  · intro fw hfw
    fin_cases hfw <;> norm_num
  · norm_num

/-- C3 (amended): the overall audio score of `getSimilarityBreakdown`
always equals `calculateAudioSimilarity`; the overall semantic score does
not in general (see the counterexample), because the breakdown divides
the accumulated facet similarity by the sum of included facet weights and
skips the 0.4/0.6 blend below two qualifying facets, while
`calculateSemanticSimilarity` does neither. -/
theorem C3_breakdown_audio_matches (t1 t2 : Track) :
    (getSimilarityBreakdown t1 t2).audioOverall = calculateAudioSimilarity t1 t2 := by
  unfold getSimilarityBreakdown calculateAudioSimilarity
  have hacc : bdAudioAccum t1 t2 = audioAccum t1 t2 := rfl
  cases hf1 : t1.hasFeatures <;> cases hf2 : t2.hasFeatures <;> simp [hf1, hf2, hacc]
  have hn := audioAccum_snd_nonneg t1 t2
  by_cases h0 : (audioAccum t1 t2).2 = 0
  · simp [h0]
  · have hpos : 0 < (audioAccum t1 t2).2 := lt_of_le_of_ne hn (Ne.symm h0)
    simp [h0, hpos]

/-- C3 (counterexample): on the concrete one-facet pair the breakdown's
overall semantic score is 1 (the facet similarity normalized by its own
weight) while `calculateSemanticSimilarity` returns 0.16, so the
breakdown does not reproduce the engine's semantic score. -/
theorem C3_counterexample :
    (getSimilarityBreakdown trackET1 trackET2).semanticOverall = 1 ∧
    calculateSemanticSimilarity trackET1 trackET2 = 4/25 ∧
    (1 : ℝ) ≠ 4/25 := by
  have hbd : bdFacetSimilarity trackET1 trackET2 "Emotional_Tone" = 1 := by
    simp [bdFacetSimilarity, trackET1, trackET2, jaccardSimilarity]
  have e1 : facetHasTags trackET1 trackET2 "Emotional_Tone" = true := by decide
  have e2 : facetHasTags trackET1 trackET2 "Thematic_Content" = false := by decide
  have e3 : facetHasTags trackET1 trackET2 "Narrative_Structure" = false := by decide
  have e4 : facetHasTags trackET1 trackET2 "Lyrical_Style" = false := by decide
  have haccum : bdSemanticAccum trackET1 trackET2 = (2/5, 2/5) := by
    unfold bdSemanticAccum
    simp [facetWeights, e1, e2, e3, e4, hbd]
    norm_num
  have hfd : facetsWithData trackET1 trackET2 = ["Emotional_Tone"] := by decide
  have hT1 : trackET1.hasTags = true := rfl
  have hT2 : trackET2.hasTags = true := rfl
  have hbdo : (getSimilarityBreakdown trackET1 trackET2).semanticOverall = 1 := by
    unfold getSimilarityBreakdown
    simp [hT1, hT2, haccum, hfd]
  have hET : facetSimilarity trackET1 trackET2 "Emotional_Tone" = 1 := by
    simp [facetSimilarity, allTagsOf, scoreOr0, trackET1, trackET2, jaccardSimilarity]
  have hbasic : basicTagSimilarity trackET1 trackET2 = 2/5 := by
    unfold basicTagSimilarity
    rw [foldl_add_filter_sum]
    simp [facetWeights, e1, e2, e3, e4, hET]
    norm_num
  have hcount : facetsWithTagsCount trackET1 trackET2 = 1 := by decide
  have hco : coOccurrenceSimilarity trackET1 trackET2 = 0 := by
    unfold coOccurrenceSimilarity
    rw [hcount]
    norm_num
  have hcalc : calculateSemanticSimilarity trackET1 trackET2 = 4/25 := by
    unfold calculateSemanticSimilarity
    rw [hT1, hT2, hcount]
    simp [hbasic, hco]
    norm_num
  exact ⟨hbdo, hcalc, by norm_num⟩

/-- The facet-has-tags test is symmetric in the two tracks. -/
theorem facetHasTags_symm (t1 t2 : Track) (f : String) :
    facetHasTags t1 t2 f = facetHasTags t2 t1 f := by
  simp [facetHasTags, Bool.and_comm]

/-- The tag union of a facet is symmetric in the two tracks. -/
theorem allTagsOf_symm (t1 t2 : Track) (f : String) :
    allTagsOf t1 t2 f = allTagsOf t2 t1 f := by
  simp only [allTagsOf, List.toFinset_append]
  exact Finset.union_comm _ _

/-- Plain Jaccard similarity is symmetric. -/
theorem jaccardSimilarity_symm (s1 s2 : Finset String) :
    jaccardSimilarity s1 s2 = jaccardSimilarity s2 s1 := by
  unfold jaccardSimilarity
  rw [Finset.union_comm s2 s1, Finset.inter_comm s2 s1]

/-- The per-facet similarity of `calculateSemanticSimilarity` is symmetric. -/
theorem facetSimilarity_symm (t1 t2 : Track) (f : String) :
    facetSimilarity t1 t2 f = facetSimilarity t2 t1 f := by
  unfold facetSimilarity
  rw [allTagsOf_symm t2 t1 f]
  have hmin : ∑ tag ∈ allTagsOf t1 t2 f, min (scoreOr0 t2 f tag) (scoreOr0 t1 f tag) =
      ∑ tag ∈ allTagsOf t1 t2 f, min (scoreOr0 t1 f tag) (scoreOr0 t2 f tag) :=
    Finset.sum_congr rfl (fun tag _ => min_comm _ _)
  have hmax : ∑ tag ∈ allTagsOf t1 t2 f, max (scoreOr0 t2 f tag) (scoreOr0 t1 f tag) =
      ∑ tag ∈ allTagsOf t1 t2 f, max (scoreOr0 t1 f tag) (scoreOr0 t2 f tag) :=
    Finset.sum_congr rfl (fun tag _ => max_comm _ _)
  rw [hmin, hmax, jaccardSimilarity_symm (t2.tags f).toFinset (t1.tags f).toFinset]

/-- The basic tag-similarity accumulator is symmetric. -/
theorem basicTagSimilarity_symm (t1 t2 : Track) :
    basicTagSimilarity t1 t2 = basicTagSimilarity t2 t1 := by
  unfold basicTagSimilarity
  rw [foldl_add_filter_sum, foldl_add_filter_sum]
  have hp : (fun fw : String × ℚ => facetHasTags t1 t2 fw.1) =
      (fun fw : String × ℚ => facetHasTags t2 t1 fw.1) := by
    funext fw; exact facetHasTags_symm t1 t2 fw.1
  have hg : (fun fw : String × ℚ => facetSimilarity t1 t2 fw.1 * (fw.2 : ℝ)) =
      (fun fw : String × ℚ => facetSimilarity t2 t1 fw.1 * (fw.2 : ℝ)) := by
    funext fw; rw [facetSimilarity_symm t1 t2 fw.1]
  rw [hp, hg]

/-- The facet counter is symmetric. -/
theorem facetsWithTagsCount_symm (t1 t2 : Track) :
    facetsWithTagsCount t1 t2 = facetsWithTagsCount t2 t1 := by
  unfold facetsWithTagsCount
  have hp : (fun fw : String × ℚ => facetHasTags t1 t2 fw.1) =
      (fun fw : String × ℚ => facetHasTags t2 t1 fw.1) := by
    funext fw; exact facetHasTags_symm t1 t2 fw.1
  rw [hp]

/-- The facets-with-data list is symmetric. -/
theorem facetsWithData_symm (t1 t2 : Track) :
    facetsWithData t1 t2 = facetsWithData t2 t1 := by
  unfold facetsWithData
  have hp : (fun f : String => facetHasTags t1 t2 f) =
      (fun f : String => facetHasTags t2 t1 f) := by
    funext f; exact facetHasTags_symm t1 t2 f
  rw [hp]

/-- Cosine similarity is symmetric under swapping the two vectors. -/
theorem cosineSimilarity_symm (s1 s2 : Finset TagKey) (v1 v2 : TagKey → ℝ) :
    cosineSimilarity s1 s2 v1 v2 = cosineSimilarity s2 s1 v2 v1 := by
  simp only [cosineSimilarity]
  rw [Finset.union_comm s2 s1]
  have hd : ∑ k ∈ s1 ∪ s2, v2 k * v1 k = ∑ k ∈ s1 ∪ s2, v1 k * v2 k :=
    Finset.sum_congr rfl (fun k _ => mul_comm _ _)
  rw [hd, mul_comm (Real.sqrt (∑ k ∈ s1 ∪ s2, v2 k * v2 k))
    (Real.sqrt (∑ k ∈ s1 ∪ s2, v1 k * v1 k))]

/-- The co-occurrence similarity of `calculateSemanticSimilarity` is
symmetric. -/
theorem coOccurrenceSimilarity_symm (t1 t2 : Track) :
    coOccurrenceSimilarity t1 t2 = coOccurrenceSimilarity t2 t1 := by
  simp only [coOccurrenceSimilarity]
  rw [facetsWithTagsCount_symm t2 t1, facetsWithData_symm t2 t1,
    cosineSimilarity_symm (tagVectorSupport t1 (facetsWithData t1 t2))
      (tagVectorSupport t2 (facetsWithData t1 t2))
      (tagVectorVal t1 (facetsWithData t1 t2)) (tagVectorVal t2 (facetsWithData t1 t2))]

/-- One audio-loop step is the same function with the tracks swapped. -/
theorem audioStep_symm (t1 t2 : Track) : audioStep t1 t2 = audioStep t2 t1 := by
  funext acc fw
  unfold audioStep
  cases h1 : t1.features fw.1 <;> cases h2 : t2.features fw.1 <;> try rfl
  rename_i v1 v2
  dsimp only
  have hdd : (if fw.1 = "tempo" then (jsNormalize v1 40 200 - jsNormalize v2 40 200) ^ 2
      else if fw.1 = "loudness" then (jsNormalize v1 (-60) 0 - jsNormalize v2 (-60) 0) ^ 2
      else if fw.1 = "mode" then (if v1 = v2 then (0 : ℝ) else 1)
      else (v1 - v2) ^ 2) =
      (if fw.1 = "tempo" then (jsNormalize v2 40 200 - jsNormalize v1 40 200) ^ 2
      else if fw.1 = "loudness" then (jsNormalize v2 (-60) 0 - jsNormalize v1 (-60) 0) ^ 2
      else if fw.1 = "mode" then (if v2 = v1 then (0 : ℝ) else 1)
      else (v2 - v1) ^ 2) := by
    split_ifs <;> first | rfl | ring1 | simp_all
  rw [hdd]

/-- C7: both underlying similarity metrics are fully symmetric:
`calculateSemanticSimilarity(A,B) = calculateSemanticSimilarity(B,A)` and
`calculateAudioSimilarity(A,B) = calculateAudioSimilarity(B,A)` for every
pair of tracks, independently of any combination weights (which do not
enter either metric). -/
theorem C7_similarity_symmetric (t1 t2 : Track) :
    calculateSemanticSimilarity t1 t2 = calculateSemanticSimilarity t2 t1 ∧
    calculateAudioSimilarity t1 t2 = calculateAudioSimilarity t2 t1 := by
  constructor
  · unfold calculateSemanticSimilarity
    rw [basicTagSimilarity_symm t1 t2, coOccurrenceSimilarity_symm t1 t2,
      facetsWithTagsCount_symm t1 t2, Bool.or_comm]
  · unfold calculateAudioSimilarity
    unfold audioAccum
    rw [audioStep_symm t1 t2, Bool.or_comm]

/-- Destructing a true `jsGt` comparison: both sides are real and ordered. -/
theorem jsGt_dest {a b : Option ℝ} (h : jsGt a b = true) :
    ∃ x y, a = some x ∧ b = some y ∧ y < x := by
  cases a with
  | none => simp [jsGt] at h
  | some x =>
      cases b with
      | none => simp [jsGt] at h
      | some y =>
          simp [jsGt] at h
          exact ⟨x, y, rfl, rfl, h⟩

/-- Membership in an insertion is membership in the parts. -/
theorem mem_insertDescBy {α : Type} (key : α → Option ℝ) (x : α) (l : List α) (a : α) :
    a ∈ insertDescBy key x l ↔ a = x ∨ a ∈ l := by
  induction l with
  | nil => simp [insertDescBy]
  | cons b bs ih =>
      unfold insertDescBy
      by_cases h : jsGt (key x) (key b) = true
      · simp [h]
      · simp only [h]
        simp [ih]
        tauto

/-- Insertion preserves the pairwise descending-key relation. -/
theorem pairwise_insertDescBy {α : Type} (key : α → Option ℝ) (x : α) (l : List α)
    (h : l.Pairwise (fun a b => ∀ u v, key a = some u → key b = some v → v ≤ u)) :
    (insertDescBy key x l).Pairwise
      (fun a b => ∀ u v, key a = some u → key b = some v → v ≤ u) := by
  induction l with
  | nil => simp [insertDescBy]
  | cons b bs ih =>
      rcases List.pairwise_cons.mp h with ⟨hb, hbs⟩
      unfold insertDescBy
      by_cases hg : jsGt (key x) (key b) = true
      · rw [if_pos hg]
        refine List.Pairwise.cons ?_ h
        intro c hc u v hxu hcv
        rcases jsGt_dest hg with ⟨u', v', hx, hbv, hlt⟩
        rw [hxu] at hx
        injection hx with hx
        subst hx
        rcases List.mem_cons.mp hc with rfl | hcmem
        · rw [hbv] at hcv
          injection hcv with hv
          subst hv
          linarith
        · have hv := hb c hcmem v' v hbv hcv
          linarith
      · rw [if_neg hg]
        refine List.Pairwise.cons ?_ (ih hbs)
        intro c hc u v hbu hcv
        rcases (mem_insertDescBy key x bs c).mp hc with rfl | hcmem
        · have hgf : jsGt (key c) (key b) = false := by
            rcases Bool.eq_false_or_eq_true (jsGt (key c) (key b)) with h0 | h0
            · exact absurd h0 hg
            · exact h0
          rw [hcv, hbu] at hgf
          simp [jsGt] at hgf
          linarith
        · exact hb c hcmem u v hbu hcv

/-- The stable descending sort produces a pairwise descending list. -/
theorem pairwise_jsSortDescBy {α : Type} (key : α → Option ℝ) (l : List α) :
    (jsSortDescBy key l).Pairwise
      (fun a b => ∀ u v, key a = some u → key b = some v → v ≤ u) := by
  suffices h : ∀ (l acc : List α),
      acc.Pairwise (fun a b => ∀ u v, key a = some u → key b = some v → v ≤ u) →
      (l.foldl (fun acc x => insertDescBy key x acc) acc).Pairwise
        (fun a b => ∀ u v, key a = some u → key b = some v → v ≤ u) by
    exact h l [] (by simp)
  intro l
  induction l with
  | nil => intro acc hacc; simpa using hacc
  | cons x xs ih =>
      intro acc hacc
      simp only [List.foldl_cons]
      exact ih _ (pairwise_insertDescBy key x acc hacc)

/-- The sort is a permutation at the level of membership. -/
theorem mem_jsSortDescBy {α : Type} (key : α → Option ℝ) (l : List α) (a : α) :
    a ∈ jsSortDescBy key l ↔ a ∈ l := by
  suffices h : ∀ (l acc : List α),
      (a ∈ l.foldl (fun acc x => insertDescBy key x acc) acc ↔ a ∈ l ∨ a ∈ acc) by
    simpa using h l []
  intro l
  induction l with
  | nil => intro acc; simp
  | cons x xs ih =>
      intro acc
      simp only [List.foldl_cons]
      rw [ih]
      simp [mem_insertDescBy]
      tauto

/-- With a non-zero total weight, a successful `calculateTrackSimilarity`
never returns `NaN`. -/
theorem calcSim_ok_isSome (store : Store) (id1 id2 ty : String) (sw aw : ℝ)
    (hw : sw + aw ≠ 0) (r : Option ℝ)
    (h : calculateTrackSimilarity store id1 id2 ty sw aw = .ok r) :
    ∃ v, r = some v := by
  unfold calculateTrackSimilarity at h
  cases h1 : getTrackById store id1 <;> rw [h1] at h
  · exact ⟨0, ((Except.ok.injEq _ _).mp h).symm⟩
  · cases h2 : getTrackById store id2 <;> rw [h2] at h
    · exact ⟨0, ((Except.ok.injEq _ _).mp h).symm⟩
    · rename_i t1 t2
      replace h : (if id1 = id2 then (Except.ok (some 1) : Except String (Option ℝ))
          else if ty = "semantic" then .ok (some (calculateSemanticSimilarity t1 t2))
          else if ty = "audio" then .ok (some (calculateAudioSimilarity t1 t2))
          else if ty = "combined" then
            if sw + aw = 0 then .ok none
            else .ok (some (calculateSemanticSimilarity t1 t2 * (sw / (sw + aw)) +
                            calculateAudioSimilarity t1 t2 * (aw / (sw + aw))))
          else .error ("Invalid similarity type: " ++ ty)) = .ok r := h
      split_ifs at h with hid hsem haud hcomb
      all_goals try cases h
      all_goals exact ⟨_, rfl⟩

/-- The candidate-loop invariant of `findSimilarTracks`: every accumulated
entry has an ID different from the source and a real similarity at least
`minSimilarity`. -/
theorem findSimStep_fold_invariant (store : Store) (trackId : String) (opts : FindOptions)
    (hw : opts.semanticWeight + opts.audioWeight ≠ 0) :
    ∀ (l : List (String × Track)) (acc res : List SimTrack),
      (∀ t ∈ acc, t.track_id ≠ trackId ∧ ∃ v, t.similarity = some v ∧ opts.minSimilarity ≤ v) →
      List.foldlM (findSimStep store trackId opts) acc l = .ok res →
      ∀ t ∈ res, t.track_id ≠ trackId ∧ ∃ v, t.similarity = some v ∧ opts.minSimilarity ≤ v := by
  intro l
  induction l with
  | nil =>
      intro acc res hacc h
      simp only [List.foldlM_nil] at h
      cases h
      exact hacc
  | cons e es ih =>
      intro acc res hacc h
      rw [List.foldlM_cons] at h
      cases hstep : findSimStep store trackId opts acc e with
      | error err => rw [hstep] at h; cases h
      | ok acc2 =>
          rw [hstep] at h
          refine ih acc2 res ?_ h
          intro t ht
          unfold findSimStep at hstep
          split_ifs at hstep with hskip
          · cases hstep
            exact hacc t ht
          · cases hcalc : calculateTrackSimilarity store trackId e.1
                opts.similarityType opts.semanticWeight opts.audioWeight with
            | error e2 => rw [hcalc] at hstep; cases hstep
            | ok sim =>
                rw [hcalc] at hstep
                replace hstep : (if jsLt sim (some opts.minSimilarity) then Except.ok acc
                    else (Except.ok (acc ++ [SimTrack.mk e.1 (e.2.track_name.getD "Unknown Track") (e.2.artist_name.getD "Unknown Artist") sim none false false none none false 1]) : Except String (List SimTrack))) = .ok acc2 := hstep
                rcases calcSim_ok_isSome store trackId e.1 opts.similarityType
                  opts.semanticWeight opts.audioWeight hw sim hcalc with ⟨v, rfl⟩
                split_ifs at hstep with hlt
                · cases hstep
                  exact hacc t ht
                · cases hstep
                  rcases List.mem_append.mp ht with hold | hnew
                  · exact hacc t hold
                  · rcases List.mem_singleton.mp hnew with rfl
                    refine ⟨hskip, v, rfl, ?_⟩
                    simp [jsLt] at hlt
                    linarith

/-- C6 (amended): provided the similarity weights do not sum to zero (so
no `NaN` scores arise), `findSimilarTracks` errors with the not-found
message for an unresolvable source, and a successful result never
contains the source ID, only carries real scores at least
`minSimilarity`, is sorted descending by score and has length at most
`limit`.  (With weights summing to 0 the claim fails: see the
counterexample.) -/
theorem C6_findSimilar_contract (store : Store) (trackId : String) (opts : FindOptions)
    (hw : opts.semanticWeight + opts.audioWeight ≠ 0) :
    (getTrackById store trackId = none →
      findSimilarTracks store trackId opts =
        .error ("Track with ID " ++ trackId ++ " not found")) ∧
    (∀ L, findSimilarTracks store trackId opts = .ok L →
      (∀ t ∈ L, t.track_id ≠ trackId ∧ ∃ v, t.similarity = some v ∧ opts.minSimilarity ≤ v) ∧
      L.Pairwise (fun a b => ∀ u v, a.similarity = some u → b.similarity = some v → v ≤ u) ∧
      L.length ≤ opts.limit) := by
  constructor
  · intro h
    unfold findSimilarTracks
    rw [h]
  · intro L hL
    unfold findSimilarTracks at hL
    cases hsrc : getTrackById store trackId with
    | none => rw [hsrc] at hL; cases hL
    | some t0 =>
        rw [hsrc] at hL
        cases hres : List.foldlM (findSimStep store trackId opts) ([] : List SimTrack) store with
        | error e => rw [hres] at hL; cases hL
        | ok results =>
            rw [hres] at hL
            replace hL : (Except.ok ((jsSortDescBy (fun t => t.similarity) results).take opts.limit) :
                Except String (List SimTrack)) = .ok L := hL
            have hLeq := (Except.ok.injEq _ _).mp hL
            subst hLeq
            refine ⟨?_, ?_, ?_⟩
            · intro t ht
              have ht2 : t ∈ jsSortDescBy (fun t => t.similarity) results :=
                List.mem_of_mem_take ht
              have ht3 : t ∈ results := (mem_jsSortDescBy _ _ _).mp ht2
              exact findSimStep_fold_invariant store trackId opts hw store [] results
                (by simp) hres t ht3
            · exact List.Pairwise.sublist (List.take_sublist _ _)
                (pairwise_jsSortDescBy (fun t => t.similarity) results)
            · simp

/-- A track with no tags object has semantic similarity 0 against anything. -/
theorem sem_zero_of_no_tags (t1 t2 : Track) (h : t1.hasTags = false) :
    calculateSemanticSimilarity t1 t2 = 0 := by
  unfold calculateSemanticSimilarity
  rw [h]
  simp

/-- A track with no features object has audio similarity 0 against anything. -/
theorem audio_zero_of_no_features (t1 t2 : Track) (h : t1.hasFeatures = false) :
    calculateAudioSimilarity t1 t2 = 0 := by
  unfold calculateAudioSimilarity
  rw [h]
  simp

/-- Audio similarity of the two feature-only tracks: identical single
feature, distance 0, similarity 1. -/
theorem audio_featPair : calculateAudioSimilarity featAlpha featBeta = 1 := by
  have hacc : audioAccum featAlpha featBeta = ((0.5 - 0.5) ^ 2 * 0.15, (0.15 : ℝ)) := by
    unfold audioAccum audioStep
    simp [featureWeights, featAlpha, featBeta]
  unfold calculateAudioSimilarity
  rw [show featAlpha.hasFeatures = true from rfl, show featBeta.hasFeatures = true from rfl]
  rw [show (!true || !true) = false from rfl]
  simp only [Bool.false_eq_true, if_false, hacc]
  rw [if_neg (by norm_num)]
  have h1 : ((0.5 - 0.5) ^ 2 * 0.15 / (0.15 : ℝ)) = 0 := by norm_num
  rw [h1, Real.sqrt_zero]
  norm_num

/-- Audio similarity of the two song-variation tracks is 1. -/
theorem audio_songPair : calculateAudioSimilarity songOriginal songRemix = 1 := by
  have hacc : audioAccum songOriginal songRemix = ((0.5 - 0.5) ^ 2 * 0.15, (0.15 : ℝ)) := by
    unfold audioAccum audioStep
    simp [featureWeights, songOriginal, songRemix]
  unfold calculateAudioSimilarity
  rw [show songOriginal.hasFeatures = true from rfl, show songRemix.hasFeatures = true from rfl]
  rw [show (!true || !true) = false from rfl]
  simp only [Bool.false_eq_true, if_false, hacc]
  rw [if_neg (by norm_num)]
  have h1 : ((0.5 - 0.5) ^ 2 * 0.15 / (0.15 : ℝ)) = 0 := by norm_num
  rw [h1, Real.sqrt_zero]
  norm_num

/-- Combined similarity of the two blank tracks is 0. -/
theorem calc_blank_s1s2 :
    calculateTrackSimilarity storeBlank "s1" "s2" "combined" 0.5 0.5 = .ok (some 0) := by
  have h0 : calculateTrackSimilarity storeBlank "s1" "s2" "combined" 0.5 0.5 =
      (if (0.5 : ℝ) + 0.5 = 0 then (Except.ok none : Except String (Option ℝ))
       else .ok (some (calculateSemanticSimilarity blankAlpha blankBeta * (0.5 / (0.5 + 0.5)) +
                       calculateAudioSimilarity blankAlpha blankBeta * (0.5 / (0.5 + 0.5))))) := rfl
  rw [h0, if_neg (by norm_num), sem_zero_of_no_tags _ _ rfl, audio_zero_of_no_features _ _ rfl]
  norm_num

/-- Combined similarity of the two blank tracks, reversed direction. -/
theorem calc_blank_s2s1 :
    calculateTrackSimilarity storeBlank "s2" "s1" "combined" 0.5 0.5 = .ok (some 0) := by
  have h0 : calculateTrackSimilarity storeBlank "s2" "s1" "combined" 0.5 0.5 =
      (if (0.5 : ℝ) + 0.5 = 0 then (Except.ok none : Except String (Option ℝ))
       else .ok (some (calculateSemanticSimilarity blankBeta blankAlpha * (0.5 / (0.5 + 0.5)) +
                       calculateAudioSimilarity blankBeta blankAlpha * (0.5 / (0.5 + 0.5))))) := rfl
  rw [h0, if_neg (by norm_num), sem_zero_of_no_tags _ _ rfl, audio_zero_of_no_features _ _ rfl]
  norm_num

/-- Combined similarity with both weights zero is `NaN`. -/
theorem calc_blank_zeroW :
    calculateTrackSimilarity storeBlank "s1" "s2" "combined" 0 0 = .ok none := by
  have h0 : calculateTrackSimilarity storeBlank "s1" "s2" "combined" 0 0 =
      (if (0 : ℝ) + 0 = 0 then (Except.ok none : Except String (Option ℝ))
       else .ok (some (calculateSemanticSimilarity blankAlpha blankBeta * (0 / (0 + 0)) +
                       calculateAudioSimilarity blankAlpha blankBeta * (0 / (0 + 0))))) := rfl
  rw [h0, if_pos (by norm_num)]

/-- Combined similarity of the two feature tracks is 0.5. -/
theorem calc_feat_half :
    calculateTrackSimilarity storeFeat "s1" "c1" "combined" 0.5 0.5 = .ok (some (1/2)) := by
  have h0 : calculateTrackSimilarity storeFeat "s1" "c1" "combined" 0.5 0.5 =
      (if (0.5 : ℝ) + 0.5 = 0 then (Except.ok none : Except String (Option ℝ))
       else .ok (some (calculateSemanticSimilarity featAlpha featBeta * (0.5 / (0.5 + 0.5)) +
                       calculateAudioSimilarity featAlpha featBeta * (0.5 / (0.5 + 0.5))))) := rfl
  rw [h0, if_neg (by norm_num), sem_zero_of_no_tags _ _ rfl, audio_featPair]
  rw [show (0 : ℝ) * (0.5 / (0.5 + 0.5)) + 1 * (0.5 / (0.5 + 0.5)) = 1/2 from by norm_num]

/-- Combined similarity of the two song-variation tracks is 0.5. -/
theorem calc_song_half :
    calculateTrackSimilarity storeSong "t1" "t2" "combined" 0.5 0.5 = .ok (some (1/2)) := by
  have h0 : calculateTrackSimilarity storeSong "t1" "t2" "combined" 0.5 0.5 =
      (if (0.5 : ℝ) + 0.5 = 0 then (Except.ok none : Except String (Option ℝ))
       else .ok (some (calculateSemanticSimilarity songOriginal songRemix * (0.5 / (0.5 + 0.5)) +
                       calculateAudioSimilarity songOriginal songRemix * (0.5 / (0.5 + 0.5))))) := rfl
  rw [h0, if_neg (by norm_num), sem_zero_of_no_tags _ _ rfl, audio_songPair]
  rw [show (0 : ℝ) * (0.5 / (0.5 + 0.5)) + 1 * (0.5 / (0.5 + 0.5)) = 1/2 from by norm_num]

/-- Candidate step on the blank store under the `maxTracks = 1` options:
the similarity 0 falls below the threshold and the candidate is dropped. -/
theorem step_blank2_s1 :
    findSimStep storeBlank "s1" fopts2 [] ("s2", blankBeta) = .ok [] := by
  have h2 : findSimStep storeBlank "s1" fopts2 [] ("s2", blankBeta) =
      (calculateTrackSimilarity storeBlank "s1" "s2" "combined" 0.5 0.5 >>= fun sim =>
        if jsLt sim (some 0.1) then pure [] else
          pure [SimTrack.mk "s2" "Beta" "Unknown Artist" sim none false false none none false 1]) := rfl
  rw [h2, calc_blank_s1s2]
  have h3 : ((Except.ok (some 0) : Except String (Option ℝ)) >>= fun sim =>
        if jsLt sim (some 0.1) then pure [] else
          pure [SimTrack.mk "s2" "Beta" "Unknown Artist" sim none false false none none false 1]) =
      (if jsLt (some 0) (some 0.1) then (pure [] : Except String (List SimTrack)) else
          pure [SimTrack.mk "s2" "Beta" "Unknown Artist" (some 0) none false false none none false 1]) := rfl
  rw [h3, if_pos (by simp [jsLt]; norm_num)]
  rfl

/-- Retrieval from the blank store for seed s1 under `maxTracks = 1`. -/
theorem findSim_blank2_s1 :
    findSimilarTracks storeBlank "s1" fopts2 = .ok [] := by
  have h0 : findSimilarTracks storeBlank "s1" fopts2 =
      ((findSimStep storeBlank "s1" fopts2 [] ("s2", blankBeta) >>= fun b => pure b) >>=
        fun results => pure ((jsSortDescBy (fun t => t.similarity) results).take 2)) := rfl
  rw [h0, step_blank2_s1]
  rfl

/-- Candidate step on the blank store for source s2. -/
theorem step_blank2_s2 :
    findSimStep storeBlank "s2" fopts2 [] ("s1", blankAlpha) = .ok [] := by
  have h2 : findSimStep storeBlank "s2" fopts2 [] ("s1", blankAlpha) =
      (calculateTrackSimilarity storeBlank "s2" "s1" "combined" 0.5 0.5 >>= fun sim =>
        if jsLt sim (some 0.1) then pure [] else
          pure [SimTrack.mk "s1" "Alpha" "Unknown Artist" sim none false false none none false 1]) := rfl
  rw [h2, calc_blank_s2s1]
  have h3 : ((Except.ok (some 0) : Except String (Option ℝ)) >>= fun sim =>
        if jsLt sim (some 0.1) then pure [] else
          pure [SimTrack.mk "s1" "Alpha" "Unknown Artist" sim none false false none none false 1]) =
      (if jsLt (some 0) (some 0.1) then (pure [] : Except String (List SimTrack)) else
          pure [SimTrack.mk "s1" "Alpha" "Unknown Artist" (some 0) none false false none none false 1]) := rfl
  rw [h3, if_pos (by simp [jsLt]; norm_num)]
  rfl

/-- Retrieval from the blank store for seed s2 under `maxTracks = 1`. -/
theorem findSim_blank2_s2 :
    findSimilarTracks storeBlank "s2" fopts2 = .ok [] := by
  have h0 : findSimilarTracks storeBlank "s2" fopts2 =
      ((findSimStep storeBlank "s2" fopts2 [] ("s1", blankAlpha) >>= fun b => pure b) >>=
        fun results => pure ((jsSortDescBy (fun t => t.similarity) results).take 2)) := rfl
  rw [h0, step_blank2_s2]
  rfl

/-- Candidate step on the blank store under default options. -/
theorem step_blankD_s1 :
    findSimStep storeBlank "s1" foptsDefault [] ("s2", blankBeta) = .ok [] := by
  have h2 : findSimStep storeBlank "s1" foptsDefault [] ("s2", blankBeta) =
      (calculateTrackSimilarity storeBlank "s1" "s2" "combined" 0.5 0.5 >>= fun sim =>
        if jsLt sim (some 0.1) then pure [] else
          pure [SimTrack.mk "s2" "Beta" "Unknown Artist" sim none false false none none false 1]) := rfl
  rw [h2, calc_blank_s1s2]
  have h3 : ((Except.ok (some 0) : Except String (Option ℝ)) >>= fun sim =>
        if jsLt sim (some 0.1) then pure [] else
          pure [SimTrack.mk "s2" "Beta" "Unknown Artist" sim none false false none none false 1]) =
      (if jsLt (some 0) (some 0.1) then (pure [] : Except String (List SimTrack)) else
          pure [SimTrack.mk "s2" "Beta" "Unknown Artist" (some 0) none false false none none false 1]) := rfl
  rw [h3, if_pos (by simp [jsLt]; norm_num)]
  rfl

/-- Retrieval from the blank store under default options is empty. -/
theorem findSim_blank_default :
    findSimilarTracks storeBlank "s1" foptsDefault = .ok [] := by
  have h0 : findSimilarTracks storeBlank "s1" foptsDefault =
      ((findSimStep storeBlank "s1" foptsDefault [] ("s2", blankBeta) >>= fun b => pure b) >>=
        fun results => pure ((jsSortDescBy (fun t => t.similarity) results).take 20)) := rfl
  rw [h0, step_blankD_s1]
  rfl

/-- Candidate step with zero weights: the `NaN` similarity does not compare
below the threshold and the candidate is kept. -/
theorem step_blank0_s1 :
    findSimStep storeBlank "s1" fopts0 [] ("s2", blankBeta) =
      .ok [SimTrack.mk "s2" "Beta" "Unknown Artist" none none false false none none false 1] := by
  have h2 : findSimStep storeBlank "s1" fopts0 [] ("s2", blankBeta) =
      (calculateTrackSimilarity storeBlank "s1" "s2" "combined" 0 0 >>= fun sim =>
        if jsLt sim (some 0.1) then pure [] else
          pure [SimTrack.mk "s2" "Beta" "Unknown Artist" sim none false false none none false 1]) := rfl
  rw [h2, calc_blank_zeroW]
  have h3 : ((Except.ok none : Except String (Option ℝ)) >>= fun sim =>
        if jsLt sim (some 0.1) then pure [] else
          pure [SimTrack.mk "s2" "Beta" "Unknown Artist" sim none false false none none false 1]) =
      (if jsLt none (some 0.1) then (pure [] : Except String (List SimTrack)) else
          pure [SimTrack.mk "s2" "Beta" "Unknown Artist" none none false false none none false 1]) := rfl
  rw [h3, if_neg (by simp [jsLt])]
  rfl

/-- Retrieval with zero combination weights returns the candidate with a
`NaN` score. -/
theorem findSim_blank_zeroW :
    findSimilarTracks storeBlank "s1" fopts0 =
      .ok [SimTrack.mk "s2" "Beta" "Unknown Artist" none none false false none none false 1] := by
  have h0 : findSimilarTracks storeBlank "s1" fopts0 =
      ((findSimStep storeBlank "s1" fopts0 [] ("s2", blankBeta) >>= fun b => pure b) >>=
        fun results => pure ((jsSortDescBy (fun t => t.similarity) results).take 20)) := rfl
  rw [h0, step_blank0_s1]
  rfl

/-- Seed loop step for seed s1 on the blank store. -/
theorem sstep_blank_s1 :
    seedSimilarStep storeBlank opts1max [] (seedSimTrack "s1" blankAlpha) = .ok [] := by
  have h : seedSimilarStep storeBlank opts1max [] (seedSimTrack "s1" blankAlpha) =
      (findSimilarTracks storeBlank "s1" fopts2 >>= fun similar =>
        pure ([] ++ similar.map (fun t => { t with similarToSeed := some "s1" }))) := rfl
  rw [h, findSim_blank2_s1]
  rfl

/-- Seed loop step for seed s2 on the blank store. -/
theorem sstep_blank_s2 :
    seedSimilarStep storeBlank opts1max [] (seedSimTrack "s2" blankBeta) = .ok [] := by
  have h : seedSimilarStep storeBlank opts1max [] (seedSimTrack "s2" blankBeta) =
      (findSimilarTracks storeBlank "s2" fopts2 >>= fun similar =>
        pure ([] ++ similar.map (fun t => { t with similarToSeed := some "s2" }))) := rfl
  rw [h, findSim_blank2_s2]
  rfl

/-- Full evaluation of `generatePlaylist` on the blank store with two seeds
and `maxTracks = 1`. -/
theorem gen_blank_eval :
    generatePlaylist storeBlank strictResolveNoop ["s1", "s2"] opts1max = .ok playlistBlank := by
  have hfold : List.foldlM (seedSimilarStep storeBlank opts1max) []
      [seedSimTrack "s1" blankAlpha, seedSimTrack "s2" blankBeta] = .ok [] := by
    have h1 : List.foldlM (seedSimilarStep storeBlank opts1max) []
        [seedSimTrack "s1" blankAlpha, seedSimTrack "s2" blankBeta] =
        (seedSimilarStep storeBlank opts1max [] (seedSimTrack "s1" blankAlpha) >>= fun b1 =>
          List.foldlM (seedSimilarStep storeBlank opts1max) b1 [seedSimTrack "s2" blankBeta]) := rfl
    rw [h1, sstep_blank_s1]
    have h2 : ((Except.ok [] : Except String (List SimTrack)) >>= fun b1 =>
        List.foldlM (seedSimilarStep storeBlank opts1max) b1 [seedSimTrack "s2" blankBeta]) =
        (seedSimilarStep storeBlank opts1max [] (seedSimTrack "s2" blankBeta) >>= fun b2 =>
          List.foldlM (seedSimilarStep storeBlank opts1max) b2 []) := rfl
    rw [h2, sstep_blank_s2]
    rfl
  have hA : generatePlaylist storeBlank strictResolveNoop ["s1", "s2"] opts1max =
      (List.foldlM (seedSimilarStep storeBlank opts1max) []
          [seedSimTrack "s1" blankAlpha, seedSimTrack "s2" blankBeta] >>= fun allSimilar =>
        pure (assemblePlaylist storeBlank strictResolveNoop opts1max
          [seedSimTrack "s1" blankAlpha, seedSimTrack "s2" blankBeta]
          [seedDetailOf "s1" blankAlpha, seedDetailOf "s2" blankBeta] allSimilar)) := rfl
  rw [hA, hfold]
  rfl

/-- C4: at the failing input — two valid seeds, `includeSeedTracks = true`
and `maxTracks = 1` — `generatePlaylist` succeeds with a playlist of 2
tracks, exceeding `maxTracks`: the truncation
`slice(0, maxTracks - playlistTracks.length)` receives a negative index
and does not cap the seed tracks. -/
theorem C4_seed_overflow :
    (generatePlaylist storeBlank strictResolveNoop ["s1", "s2"] opts1max).map
      (fun p => p.tracks.length) = .ok 2 ∧
    opts1max.maxTracks = 1 ∧ 1 < 2 := by
  refine ⟨?_, rfl, by norm_num⟩
  rw [gen_blank_eval]
  rfl

/-- Candidate step on the feature store: similarity 0.5 passes the
threshold. -/
theorem step_feat :
    findSimStep storeFeat "s1" fopts60 [] ("c1", featBeta) =
      .ok [SimTrack.mk "c1" "Beta" "Unknown Artist" (some (1/2)) none false false none none false 1] := by
  have h2 : findSimStep storeFeat "s1" fopts60 [] ("c1", featBeta) =
      (calculateTrackSimilarity storeFeat "s1" "c1" "combined" 0.5 0.5 >>= fun sim =>
        if jsLt sim (some 0.1) then pure [] else
          pure [SimTrack.mk "c1" "Beta" "Unknown Artist" sim none false false none none false 1]) := rfl
  rw [h2, calc_feat_half]
  have h3 : ((Except.ok (some (1/2)) : Except String (Option ℝ)) >>= fun sim =>
        if jsLt sim (some 0.1) then pure [] else
          pure [SimTrack.mk "c1" "Beta" "Unknown Artist" sim none false false none none false 1]) =
      (if jsLt (some (1/2)) (some 0.1) then (pure [] : Except String (List SimTrack)) else
          pure [SimTrack.mk "c1" "Beta" "Unknown Artist" (some (1/2)) none false false none none false 1]) := rfl
  rw [h3, if_neg (by simp [jsLt]; norm_num)]
  rfl

/-- Retrieval from the feature store for seed s1. -/
theorem findSim_feat :
    findSimilarTracks storeFeat "s1" fopts60 =
      .ok [SimTrack.mk "c1" "Beta" "Unknown Artist" (some (1/2)) none false false none none false 1] := by
  have h0 : findSimilarTracks storeFeat "s1" fopts60 =
      ((findSimStep storeFeat "s1" fopts60 [] ("c1", featBeta) >>= fun b => pure b) >>=
        fun results => pure ((jsSortDescBy (fun t => t.similarity) results).take 60)) := rfl
  rw [h0, step_feat]
  rfl

/-- Seed loop step for seed s1 on the feature store. -/
theorem sstep_feat :
    seedSimilarStep storeFeat optsDefault [] (seedSimTrack "s1" featAlpha) =
      .ok [SimTrack.mk "c1" "Beta" "Unknown Artist" (some (1/2)) (some "s1") false false none none false 1] := by
  have h : seedSimilarStep storeFeat optsDefault [] (seedSimTrack "s1" featAlpha) =
      (findSimilarTracks storeFeat "s1" fopts60 >>= fun similar =>
        pure ([] ++ similar.map (fun t => { t with similarToSeed := some "s1" }))) := rfl
  rw [h, findSim_feat]
  rfl

/-- Full evaluation of `generatePlaylist` on the feature store. -/
theorem gen_feat_eval :
    generatePlaylist storeFeat strictResolveNoop ["s1"] optsDefault = .ok playlistFeat := by
  have hfold : List.foldlM (seedSimilarStep storeFeat optsDefault) []
      [seedSimTrack "s1" featAlpha] =
      .ok [SimTrack.mk "c1" "Beta" "Unknown Artist" (some (1/2)) (some "s1") false false none none false 1] := by
    have h1 : List.foldlM (seedSimilarStep storeFeat optsDefault) [] [seedSimTrack "s1" featAlpha] =
        (seedSimilarStep storeFeat optsDefault [] (seedSimTrack "s1" featAlpha) >>= fun b1 =>
          List.foldlM (seedSimilarStep storeFeat optsDefault) b1 []) := rfl
    rw [h1, sstep_feat]
    rfl
  have hA : generatePlaylist storeFeat strictResolveNoop ["s1"] optsDefault =
      (List.foldlM (seedSimilarStep storeFeat optsDefault) [] [seedSimTrack "s1" featAlpha] >>=
        fun allSimilar => pure (assemblePlaylist storeFeat strictResolveNoop optsDefault
          [seedSimTrack "s1" featAlpha] [seedDetailOf "s1" featAlpha] allSimilar)) := rfl
  rw [hA, hfold]
  rfl

/-- A bind whose continuation is pure succeeds exactly on an inner success. -/
theorem except_bind_pure_ok {α β : Type} (x : Except String α) (g : α → β) (P : β)
    (h : (x >>= fun a => pure (g a)) = .ok P) : ∃ a, x = .ok a ∧ P = g a := by
  cases x with
  | error e => cases h
  | ok a => exact ⟨a, rfl, ((Except.ok.injEq _ _).mp h).symm⟩

/-- C5 (amended): the `averageSimilarity` statistic of every playlist
returned by `generatePlaylist` is the sum of the similarity values of ALL
its tracks — seed tracks (similarity 1.0) included — divided by the total
track count, not the mean over non-seed tracks only. -/
theorem C5_average_includes_seeds (store : Store)
    (strict : List SeedDetail → List SimTrack → List SimTrack)
    (seedIds : List String) (opts : PlaylistOptions) (P : Playlist)
    (h : generatePlaylist store strict seedIds opts = .ok P) :
    P.stats.averageSimilarity = jsDivNat (totalSimilarityOf P.tracks) P.tracks.length ∧
    P.stats.trackCount = P.tracks.length := by
  unfold generatePlaylist at h
  by_cases hempt : ((seedIds.filterMap
      (fun id => (getTrackById store id).map (fun t => (id, t)))).map
        (fun p => seedSimTrack p.1 p.2)).isEmpty
  · replace h : (Except.error "No valid seed tracks provided" : Except String Playlist) = .ok P := by
      rw [if_pos hempt] at h
      exact h
    cases h
  · replace h : (List.foldlM (seedSimilarStep store opts) []
        ((seedIds.filterMap (fun id => (getTrackById store id).map (fun t => (id, t)))).map
          (fun p => seedSimTrack p.1 p.2)) >>= fun allSimilarTracks =>
        pure (assemblePlaylist store strict opts
          ((seedIds.filterMap (fun id => (getTrackById store id).map (fun t => (id, t)))).map
            (fun p => seedSimTrack p.1 p.2))
          ((seedIds.filterMap (fun id => (getTrackById store id).map (fun t => (id, t)))).map
            (fun p => seedDetailOf p.1 p.2))
          allSimilarTracks)) = .ok P := by
      rw [if_neg hempt] at h
      exact h
    rcases except_bind_pure_ok _ _ _ h with ⟨a, hx, rfl⟩
    exact ⟨rfl, rfl⟩

/-- C5 (witness): the amended statement instantiated on the concrete
feature-store playlist. -/
theorem C5_witness :
    playlistFeat.stats.averageSimilarity =
      jsDivNat (totalSimilarityOf playlistFeat.tracks) playlistFeat.tracks.length ∧
    playlistFeat.stats.trackCount = playlistFeat.tracks.length :=
  C5_average_includes_seeds storeFeat strictResolveNoop ["s1"] optsDefault
    playlistFeat gen_feat_eval

/-- C5 (counterexample): the concrete playlist has one seed (similarity 1)
and one recommended track (similarity 0.5); the reported average is
`(1 + 0.5) / 2 = 0.75`, not the non-seed mean `0.5`. -/
theorem C5_counterexample :
    (generatePlaylist storeFeat strictResolveNoop ["s1"] optsDefault).map
      (fun p => (p.stats.averageSimilarity, p.tracks.map (fun t => (t.isSeed, t.similarity)))) =
    .ok (some (3/4), [(true, some 1), (false, some (1/2))]) ∧
    ((3 : ℝ)/4) ≠ 1/2 := by
  constructor
  · rw [gen_feat_eval]
    have hmap : (Except.ok playlistFeat : Except String Playlist).map
        (fun p => (p.stats.averageSimilarity, p.tracks.map (fun t => (t.isSeed, t.similarity)))) =
        .ok (some ((0 + 1 + 1/2) / ((2:ℕ) : ℝ)), [(true, some 1), (false, some (1/2))]) := rfl
    rw [hmap]
    norm_num
  · norm_num

/-- Candidate step on the song store: similarity 0.5 passes the threshold. -/
theorem step_song :
    findSimStep storeSong "t1" fopts60 [] ("t2", songRemix) =
      .ok [SimTrack.mk "t2" "Song (Remix)" "Ann" (some (1/2)) none false false none none false 1] := by
  have h2 : findSimStep storeSong "t1" fopts60 [] ("t2", songRemix) =
      (calculateTrackSimilarity storeSong "t1" "t2" "combined" 0.5 0.5 >>= fun sim =>
        if jsLt sim (some 0.1) then pure [] else
          pure [SimTrack.mk "t2" "Song (Remix)" "Ann" sim none false false none none false 1]) := rfl
  rw [h2, calc_song_half]
  have h3 : ((Except.ok (some (1/2)) : Except String (Option ℝ)) >>= fun sim =>
        if jsLt sim (some 0.1) then pure [] else
          pure [SimTrack.mk "t2" "Song (Remix)" "Ann" sim none false false none none false 1]) =
      (if jsLt (some (1/2)) (some 0.1) then (pure [] : Except String (List SimTrack)) else
          pure [SimTrack.mk "t2" "Song (Remix)" "Ann" (some (1/2)) none false false none none false 1]) := rfl
  rw [h3, if_neg (by simp [jsLt]; norm_num)]
  rfl

/-- Retrieval from the song store for seed t1. -/
theorem findSim_song :
    findSimilarTracks storeSong "t1" fopts60 =
      .ok [SimTrack.mk "t2" "Song (Remix)" "Ann" (some (1/2)) none false false none none false 1] := by
  have h0 : findSimilarTracks storeSong "t1" fopts60 =
      ((findSimStep storeSong "t1" fopts60 [] ("t2", songRemix) >>= fun b => pure b) >>=
        fun results => pure ((jsSortDescBy (fun t => t.similarity) results).take 60)) := rfl
  rw [h0, step_song]
  rfl

/-- Seed loop step for seed t1 on the song store. -/
theorem sstep_song :
    seedSimilarStep storeSong optsDefault [] (seedSimTrack "t1" songOriginal) =
      .ok [SimTrack.mk "t2" "Song (Remix)" "Ann" (some (1/2)) (some "t1") false false none none false 1] := by
  have h : seedSimilarStep storeSong optsDefault [] (seedSimTrack "t1" songOriginal) =
      (findSimilarTracks storeSong "t1" fopts60 >>= fun similar =>
        pure ([] ++ similar.map (fun t => { t with similarToSeed := some "t1" }))) := rfl
  rw [h, findSim_song]
  rfl

/-- Full evaluation of `generatePlaylist` on the song store. -/
theorem gen_song_eval :
    generatePlaylist storeSong strictResolveNoop ["t1"] optsDefault = .ok playlistSong := by
  have hfold : List.foldlM (seedSimilarStep storeSong optsDefault) []
      [seedSimTrack "t1" songOriginal] =
      .ok [SimTrack.mk "t2" "Song (Remix)" "Ann" (some (1/2)) (some "t1") false false none none false 1] := by
    have h1 : List.foldlM (seedSimilarStep storeSong optsDefault) [] [seedSimTrack "t1" songOriginal] =
        (seedSimilarStep storeSong optsDefault [] (seedSimTrack "t1" songOriginal) >>= fun b1 =>
          List.foldlM (seedSimilarStep storeSong optsDefault) b1 []) := rfl
    rw [h1, sstep_song]
    rfl
  have hA : generatePlaylist storeSong strictResolveNoop ["t1"] optsDefault =
      (List.foldlM (seedSimilarStep storeSong optsDefault) [] [seedSimTrack "t1" songOriginal] >>=
        fun allSimilar => pure (assemblePlaylist storeSong strictResolveNoop optsDefault
          [seedSimTrack "t1" songOriginal] [seedDetailOf "t1" songOriginal] allSimilar)) := rfl
  rw [hA, hfold]
  rfl

/-- `List.find?` returns the head of the matching suffix when no element
before it satisfies the predicate: the canonical "first match" shape. -/
theorem find?_eq_head_of_split {α : Type} (p : α → Bool) (pre : List α)
    (sd : α) (post : List α) (hpre : ∀ x ∈ pre, p x = false)
    (hsd : p sd = true) :
    List.find? p (pre ++ sd :: post) = some sd := by
  induction pre with
  | nil => simp [List.find?_cons, hsd]
  | cons a as ih =>
      have ha : p a = false := hpre a (List.mem_cons_self a as)
      have hrec := ih (fun x hx => hpre x (List.mem_cons_of_mem a hx))
      simpa [List.find?_cons, ha] using hrec

/-- C8 (amended): with `allowTrackVariations = true`, the annotation pass
filters out no candidate (IDs and similarities are preserved one-for-one)
and marks a candidate as a variation exactly when it resolves in the
store and its base name is string-equal to some seed's base name;
in that case `variationOf` is set to the id of the FIRST seed whose base
name matches (the inner loop breaks at the first hit), and a candidate
that resolves but matches no seed is returned entirely unchanged. -/
theorem C8_lenient_annotation_exact_basename (store : Store)
    (seedDetails : List SeedDetail) (l : List SimTrack) :
    annotateVariations store seedDetails l = l.map (annotateOne store seedDetails) ∧
    (∀ t : SimTrack, (annotateOne store seedDetails t).track_id = t.track_id ∧
        (annotateOne store seedDetails t).similarity = t.similarity) ∧
    (∀ t : SimTrack, t.isVariation = false →
      ((annotateOne store seedDetails t).isVariation = true ↔
        ∃ td, getTrackById store t.track_id = some td ∧
          ∃ sd ∈ seedDetails, sd.baseName = getBaseTrackName (td.track_name.getD ""))) ∧
    (∀ t : SimTrack, ∀ td, getTrackById store t.track_id = some td →
      ∀ pre sd post, seedDetails = pre ++ sd :: post →
        (∀ sd2 ∈ pre, sd2.baseName ≠ getBaseTrackName (td.track_name.getD "")) →
        sd.baseName = getBaseTrackName (td.track_name.getD "") →
        (annotateOne store seedDetails t).isVariation = true ∧
        (annotateOne store seedDetails t).variationOf = some sd.id) ∧
    (∀ t : SimTrack,
      (∀ td, getTrackById store t.track_id = some td →
        ∀ sd ∈ seedDetails, sd.baseName ≠ getBaseTrackName (td.track_name.getD "")) →
      annotateOne store seedDetails t = t) := by
  refine ⟨rfl, ?_, ?_, ?_, ?_⟩
  · intro t
    unfold annotateOne
    cases getTrackById store t.track_id with
    | none => exact ⟨rfl, rfl⟩
    | some td =>
        dsimp only
        cases List.find? (fun sd => decide (sd.baseName = getBaseTrackName (td.track_name.getD "")))
            seedDetails with
        | none => exact ⟨rfl, rfl⟩
        | some sd => exact ⟨rfl, rfl⟩
  · intro t ht
    unfold annotateOne
    cases hd : getTrackById store t.track_id with
    | none => simp [ht]
    | some td =>
        dsimp only
        cases hf : List.find? (fun sd => decide (sd.baseName = getBaseTrackName (td.track_name.getD "")))
            seedDetails with
        | none =>
            rw [ht]
            simp only [Bool.false_eq_true, false_iff]
            rintro ⟨td2, htd2, sd, hsd, hbn⟩
            have he : td = td2 := by injection htd2
            subst he
            have hnone := List.find?_eq_none.mp hf sd hsd
            simp only [decide_eq_true_eq] at hnone
            exact hnone hbn
        | some sd =>
            simp only [true_iff]
            have hmem := List.mem_of_find?_eq_some hf
            have hp := List.find?_some hf
            simp only [decide_eq_true_eq] at hp
            exact ⟨td, rfl, sd, hmem, hp⟩
  · intro t td hd pre sd post hsplit hpre hsd
    unfold annotateOne
    rw [hd]
    dsimp only
    have hfind : List.find?
        (fun x => decide (x.baseName = getBaseTrackName (td.track_name.getD "")))
        seedDetails = some sd := by
      rw [hsplit]
      refine find?_eq_head_of_split _ pre sd post ?_ ?_
      · intro x hx
        simpa using hpre x hx
      · simpa using hsd
    rw [hfind]
    exact ⟨rfl, rfl⟩
  · intro t hno
    unfold annotateOne
    cases hd : getTrackById store t.track_id with
    | none => rfl
    | some td =>
        dsimp only
        have hfind : List.find?
            (fun x => decide (x.baseName = getBaseTrackName (td.track_name.getD "")))
            seedDetails = none := by
          apply List.find?_eq_none.mpr
          intro x hx
          simp only [decide_eq_true_eq]
          exact hno td hd x hx
        rw [hfind]

/-- C8 (witness): the annotation rules applied to concrete candidates of
the song store: the first-match rule stamps `variationOf` with the seed
id on an exact base-name match, and the criterion holds for the remix
candidate whose base name differs. -/
theorem C8_witness :
    ((annotateOne storeSong [seedDetailOf "t1" songOriginal]
        (SimTrack.mk "t1" "Song (Original)" "Ann" (some 1) none true false none none false 1)).isVariation = true ∧
      (annotateOne storeSong [seedDetailOf "t1" songOriginal]
        (SimTrack.mk "t1" "Song (Original)" "Ann" (some 1) none true false none none false 1)).variationOf = some "t1") ∧
    ((annotateOne storeSong [seedDetailOf "t1" songOriginal]
        (SimTrack.mk "t2" "Song (Remix)" "Ann" (some (1/2)) (some "t1") false false none none false 1)).isVariation = true ↔
      ∃ td, getTrackById storeSong
          (SimTrack.mk "t2" "Song (Remix)" "Ann" (some (1/2)) (some "t1") false false none none false 1).track_id = some td ∧
        ∃ sd ∈ [seedDetailOf "t1" songOriginal],
          sd.baseName = getBaseTrackName (td.track_name.getD "")) :=
  ⟨(C8_lenient_annotation_exact_basename storeSong [seedDetailOf "t1" songOriginal] []).2.2.2.1
      (SimTrack.mk "t1" "Song (Original)" "Ann" (some 1) none true false none none false 1)
      songOriginal rfl [] (seedDetailOf "t1" songOriginal) []
      rfl (by intro x hx; cases hx) (by decide),
   (C8_lenient_annotation_exact_basename storeSong [seedDetailOf "t1" songOriginal] []).2.2.1
      (SimTrack.mk "t2" "Song (Remix)" "Ann" (some (1/2)) (some "t1") false false none none false 1) rfl⟩

/-- C8 (counterexample): for seed "Song (Original)" and candidate
"Song (Remix)" the generated playlist includes the candidate, but its
`isVariation` flag is false: qualifier stripping leaves the seed's name
unchanged ("original" matches no pattern) while the candidate strips to
"Song", so the exact base-name equality of the lenient mode fails. -/
theorem C8_counterexample :
    (generatePlaylist storeSong strictResolveNoop ["t1"] optsDefault).map
      (fun p => p.tracks.map (fun t => (t.track_id, t.isVariation))) =
    .ok [("t1", false), ("t2", false)] ∧
    getBaseTrackName "Song (Original)" = "Song (Original)" ∧
    getBaseTrackName "Song (Remix)" = "Song" := by
  refine ⟨?_, by decide, by decide⟩
  rw [gen_song_eval]
  rfl

/-- C6 (counterexample): with `semanticWeight = 0` and `audioWeight = 0`,
`findSimilarTracks` returns a candidate whose similarity is `NaN`
(modelled `none`): the `NaN` does not compare below `minSimilarity`, so
the filter keeps it, and the returned score is not at least
`minSimilarity`, contradicting the claim for this options value. -/
theorem C6_counterexample :
    findSimilarTracks storeBlank "s1" fopts0 =
      .ok [SimTrack.mk "s2" "Beta" "Unknown Artist" none none false false none none false 1] ∧
    ¬ (∀ t ∈ [SimTrack.mk "s2" "Beta" "Unknown Artist" none none false false none none false 1],
        ∃ v, t.similarity = some v ∧ fopts0.minSimilarity ≤ v) := by
  refine ⟨findSim_blank_zeroW, ?_⟩
  intro hall
  rcases hall _ (List.mem_singleton_self _) with ⟨v, hv, _⟩
  cases hv

/-- C6 (witness): the contract applied to an unresolvable source on the
blank store, and to the resolvable source s1 under default options. -/
theorem C6_witness :
    findSimilarTracks storeBlank "zz" foptsDefault =
      .error ("Track with ID " ++ "zz" ++ " not found") ∧
    ((∀ t ∈ ([] : List SimTrack), t.track_id ≠ "s1" ∧
        ∃ v, t.similarity = some v ∧ foptsDefault.minSimilarity ≤ v) ∧
      ([] : List SimTrack).Pairwise
        (fun a b => ∀ u v, a.similarity = some u → b.similarity = some v → v ≤ u) ∧
      ([] : List SimTrack).length ≤ foptsDefault.limit) :=
  ⟨(C6_findSimilar_contract storeBlank "zz" foptsDefault
      (by simp [foptsDefault]; norm_num)).1 rfl,
   (C6_findSimilar_contract storeBlank "s1" foptsDefault
      (by simp [foptsDefault]; norm_num)).2 [] findSim_blank_default⟩
